import Mathlib

/-!
# Checklist client: route guards, session and form handlers

A shallow embedding of the React client under `my-todo/src`:

* `App.jsx` (`ProtectedRoute`, the route table of `App`),
* `auth/RedirectIfAuthenticated.jsx`,
* `pages/login.jsx` (`handleLogin`), `pages/register.jsx` (`handleRegister`),
* `pages/dashboard.jsx` (`fetchChecklists`, `addChecklist`, `deleteChecklist`,
  `handleLogout`),
* `pages/checklistdetail.jsx` (`fetchChecklistDetails`, `addChecklistItem`,
  `deleteChecklistItem`, `toggleItemStatus`, `startEditing`, `saveEditedItem`,
  the inline key and cancel handlers, and the render).

Conventions.  A JavaScript value of type `string | absent` is an `Option String`.
A component is a function from its inputs to what it renders; a handler is a
function from the component state (and the reply of the server to the request it
awaits) to the state after the run together with the list of effects it issued,
in program order.  A call that is not awaited (`fetchChecklists()`,
`fetchChecklistDetails()`) is recorded as one effect; the callee is embedded as a
function of its own.
-/

namespace Todo

/-! ## JavaScript primitives -/

/-- Truthiness of a JavaScript `string | absent`: absent values and the empty
string are falsy, every other string is truthy. -/
def truthy : Option String → Bool
  | none => false
  | some s => s != ""

/-- Code points removed by `String.prototype.trim` and matched by `\s`:
the ECMAScript WhiteSpace and LineTerminator productions. -/
def isWhiteSpace (c : Char) : Bool :=
  c.val = 0x09 || c.val = 0x0A || c.val = 0x0B || c.val = 0x0C || c.val = 0x0D ||
  c.val = 0x20 || c.val = 0xA0 || c.val = 0x1680 ||
  (0x2000 ≤ c.val && c.val ≤ 0x200A) ||
  c.val = 0x2028 || c.val = 0x2029 || c.val = 0x202F || c.val = 0x205F ||
  c.val = 0x3000 || c.val = 0xFEFF

/-- The method `String.prototype.trim`: white space is removed from both ends. -/
def trim (s : String) : String :=
  ⟨((s.data.dropWhile isWhiteSpace).reverse.dropWhile isWhiteSpace).reverse⟩

/-- The test `!s.trim()`: the trimmed string is the empty string. -/
def trimIsFalsy (s : String) : Bool :=
  !truthy (some (trim s))

/-- The property `length` of a JavaScript string: the number of UTF-16 code
units, two for a code point outside the basic plane. -/
def length (s : String) : Nat :=
  (s.data.map fun c => if c.val < 0x10000 then 1 else 2).sum

/-- Rendering of an integer by `Number.prototype.toString`: decimal digits with
a leading minus sign for a negative number.  Ids are integers, as in the data
model; JavaScript renders an integer this way up to a magnitude of `10^21`. -/
def numberToString (n : Int) : String :=
  toString n

/-! ## Rendering and the route guards -/

/-- What a guard component returns: the children it was given, a
`<Navigate to=... />` element, or `null`. -/
inductive Rendered (α : Type) where
  | children (c : α)
  | Navigate (target : String)
  | null
  deriving DecidableEq, Repr

/-- The component `ProtectedRoute` of `App.jsx`:
`return token ? children : <Navigate to="/login" />`. -/
def ProtectedRoute {α : Type} (token : Option String) (children : α) : Rendered α :=
  if truthy token then Rendered.children children else Rendered.Navigate "/login"

/-- Result of one render of `RedirectIfAuthenticated`: the returned element and
the calls of `navigate` made by its effect once the render is committed. -/
structure GuardRun (α : Type) where
  render : Rendered α
  navigations : List String
  deriving DecidableEq, Repr

/-- The component `RedirectIfAuthenticated`: the effect runs
`if (token) navigate('/')`, and the render is `!token ? children : null`. -/
def RedirectIfAuthenticated {α : Type} (token : Option String) (children : α) : GuardRun α :=
  { render := if !truthy token then Rendered.children children else Rendered.null
    navigations := if truthy token then ["/"] else [] }

/-- The four page components. -/
inductive Screen where
  | Login
  | Register
  | ChecklistDetail
  | Dashboard
  deriving DecidableEq, Repr

/-- The `element` of a route: a page, possibly wrapped in guards. -/
inductive Element where
  | page (s : Screen)
  | ProtectedRoute (children : Element)
  | RedirectIfAuthenticated (children : Element)
  deriving DecidableEq, Repr

/-- One segment of a route path: a literal, or a parameter such as `:id`. -/
inductive Segment where
  | static (name : String)
  | param (name : String)
  deriving DecidableEq, Repr

/-- A `<Route path=... element=... />`; the path is kept as its segments, so
`/checklist/:id` is `[static "checklist", param "id"]` and `/` is `[]`. -/
structure Route where
  path : List Segment
  element : Element
  deriving DecidableEq, Repr

/-- The children of `<Routes>` in `App`, in source order (the route of
`/checklist/:id` is written twice in the source). -/
def routes : List Route :=
  [ { path := [Segment.static "login"],
      element := Element.RedirectIfAuthenticated (Element.page Screen.Login) },
    { path := [Segment.static "register"],
      element := Element.RedirectIfAuthenticated (Element.page Screen.Register) },
    { path := [Segment.static "checklist", Segment.param "id"],
      element := Element.page Screen.ChecklistDetail },
    { path := [Segment.static "checklist", Segment.param "id"],
      element := Element.page Screen.ChecklistDetail },
    { path := [],
      element := Element.ProtectedRoute (Element.page Screen.Dashboard) } ]

/-- Matching of a location, given as its non-empty segments, against a route
path: a literal matches itself, a parameter matches any segment. -/
def matchPath : List Segment → List String → Bool
  | [], [] => true
  | Segment.static n :: ps, s :: ss => n == s && matchPath ps ss
  | Segment.param _ :: ps, _ :: ss => matchPath ps ss
  | _, _ => false

/-- The route chosen by `<Routes>` for a location.  No location matches two
different paths of `routes`, so the first match is the one the router ranks
best. -/
def matchRoute (location : List String) : Option Route :=
  routes.find? fun r => matchPath r.path location

/-- Continue below a guard: where the guard returned its children, the children
are rendered in their place. -/
def Rendered.andThen {β : Type} : Rendered Unit → Rendered β → Rendered β
  | Rendered.children _, inner => inner
  | Rendered.Navigate target, _ => Rendered.Navigate target
  | Rendered.null, _ => Rendered.null

/-- The page shown for a route element under a session token, each guard being
evaluated by its component. -/
def renderElement (token : Option String) : Element → Rendered Screen
  | Element.page s => Rendered.children s
  | Element.ProtectedRoute c =>
      (ProtectedRoute token ()).andThen (renderElement token c)
  | Element.RedirectIfAuthenticated c =>
      (RedirectIfAuthenticated token ()).render.andThen (renderElement token c)

/-- The component `App` at a location: the matched route, rendered; `none` when
no route matches. -/
def App (token : Option String) (location : List String) : Option (Rendered Screen) :=
  (matchRoute location).map fun r => renderElement token r.element

/-- A route element is wrapped when its outermost component is one of the two
guards. -/
def Element.isGuarded : Element → Bool
  | Element.page _ => false
  | Element.ProtectedRoute _ => true
  | Element.RedirectIfAuthenticated _ => true

/-! ## Requests, replies and effects -/

/-- The HTTP methods used with `axios`. -/
inductive Method where
  | GET
  | POST
  | PUT
  | DELETE
  deriving DecidableEq, Repr

/-- One call of `axios`: method, URL, the JSON object sent as body (absent for
`get` and `delete`), and the token interpolated into the header
`Authorization: Bearer ${token}` when that header is set. -/
structure Request where
  method : Method
  url : String
  data : Option (List (String × String))
  bearer : Option (Option String)
  deriving DecidableEq, Repr

/-- The body of an error response, read through `data.message`. -/
structure ErrorData where
  message : Option String
  deriving DecidableEq, Repr

/-- The field `err.response` of a rejected request. -/
structure ErrorResponse where
  status : Nat
  data : Option ErrorData
  deriving DecidableEq, Repr

/-- A value caught by `catch (err)`: its `message`, and its `response` when
the server answered. -/
structure JsError where
  message : String
  response : Option ErrorResponse
  deriving DecidableEq, Repr

/-- Outcome of an awaited request: rejected with an error, or resolved. -/
inductive Reply (α : Type) where
  | rejected (err : JsError)
  | resolved (res : α)
  deriving DecidableEq, Repr

/-- A callback handed to `setTimeout`. -/
inductive Callback where
  | navigate (target : String)
  | setError (value : Option String)
  deriving DecidableEq, Repr

/-- What a handler does besides updating its component state. -/
inductive Effect where
  | preventDefault
  | request (r : Request)
  | alert (message : String)
  | confirm (message : String)
  | consoleError (text : String)
  | login (token : Option String)
  | logout
  | navigate (target : String)
  | setTimeout (callback : Callback) (delay : Nat)
  | fetchChecklists
  | fetchChecklistDetails
  deriving DecidableEq, Repr

/-- The requests issued in a run. -/
def requests (effects : List Effect) : List Request :=
  effects.filterMap fun e => match e with
    | Effect.request r => some r
    | _ => none

/-- The immediate calls of `navigate` in a run. -/
def navigations (effects : List Effect) : List String :=
  effects.filterMap fun e => match e with
    | Effect.navigate target => some target
    | _ => none

/-- The timers scheduled in a run. -/
def timers (effects : List Effect) : List (Callback × Nat) :=
  effects.filterMap fun e => match e with
    | Effect.setTimeout callback delay => some (callback, delay)
    | _ => none

/-- The calls of the session operations `login` and `logout` in a run. -/
def sessionCalls (effects : List Effect) : List Effect :=
  effects.filter fun e => match e with
    | Effect.login _ => true
    | Effect.logout => true
    | _ => false

/-- The reloads started in a run: calls of `fetchChecklists` or
`fetchChecklistDetails`. -/
def reloads (effects : List Effect) : List Effect :=
  effects.filter fun e => match e with
    | Effect.fetchChecklists => true
    | Effect.fetchChecklistDetails => true
    | _ => false

/-- A string is empty or consists only of white space. -/
def isBlank (s : String) : Prop :=
  ∀ c ∈ s.data, isWhiteSpace c = true

instance (s : String) : Decidable (isBlank s) :=
  inferInstanceAs (Decidable (∀ c ∈ s.data, isWhiteSpace c = true))

/-- A string contains a character that is not white space. -/
def hasNonWhiteSpace (s : String) : Prop :=
  ∃ c ∈ s.data, isWhiteSpace c = false

instance (s : String) : Decidable (hasNonWhiteSpace s) :=
  inferInstanceAs (Decidable (∃ c ∈ s.data, isWhiteSpace c = false))

/-! ## The session store -/

/-- Modelled from the spec: the Session Store of `auth/AuthContext`, which is
imported by every page but is not among the sources.  It holds the current
token, `string | absent`. -/
structure Session where
  token : Option String
  deriving DecidableEq, Repr

/-- Modelled from the spec: `login(token)` of the Session Store, "stores token,
making it visible to all consumers". -/
def Session.login (_s : Session) (token : Option String) : Session :=
  { token := token }

/-- Modelled from the spec: `logout()` of the Session Store, "clears token". -/
def Session.logout (_s : Session) : Session :=
  { token := none }

/-- The session after the effects of a run: each call of `login` or `logout`
is applied to the store, in order; no other effect touches it. -/
def Session.after (s : Session) : List Effect → Session
  | [] => s
  | Effect.login token :: rest => (s.login token).after rest
  | Effect.logout :: rest => s.logout.after rest
  | _ :: rest => s.after rest

/-! ## `pages/login.jsx` -/

namespace Login

/-- The state hooks of the component `Login`. -/
structure State where
  username : String
  password : String
  isLoading : Bool
  error : Option String
  deriving DecidableEq, Repr

/-- The payload `res.data.data` of a resolved login request, read through the
destructuring `const { token } = res.data.data`. -/
structure Response where
  token : Option String
  deriving DecidableEq, Repr

/-- The `catch` block of `handleLogin`: the message chosen for a caught error. -/
def errorMessage (err : JsError) : String :=
  match err.response with
  | some response =>
      if response.status = 401 then
        "Invalid username or password. Please try again."
      else
        match response.data with
        | some data =>
            if truthy data.message then data.message.getD ""
            else "An unexpected error occurred during login."
        | none => "An unexpected error occurred during login."
  | none => "Network error. Please check your connection."

/-- The handler `handleLogin`, run to completion from state `s` with `reply`
the outcome of the awaited `axios.post`. -/
def handleLogin (API_BASE_URL : String) (s : State) (reply : Reply Response) :
    State × List Effect :=
  let s := { s with isLoading := true }
  let s := { s with error := none }
  if trimIsFalsy s.username || trimIsFalsy s.password then
    let s := { s with error := some "Please enter both username and password." }
    let s := { s with isLoading := false }
    (s, [Effect.preventDefault])
  else
    let post := Effect.request
      { method := Method.POST
        url := API_BASE_URL ++ "/login"
        data := some [("username", s.username), ("password", s.password)]
        bearer := none }
    match reply with
    | Reply.resolved res =>
        ({ s with isLoading := false },
          [Effect.preventDefault, post, Effect.login res.token, Effect.navigate "/"])
    | Reply.rejected err =>
        let s := { s with error := some (errorMessage err) }
        ({ s with isLoading := false },
          [Effect.preventDefault, post, Effect.consoleError "Login failed:"])

end Login

/-! ## `pages/register.jsx` -/

namespace Register

/-- The classes of characters told apart by the pattern `/\S+@\S+\.\S+/`. -/
inductive CharClass where
  | whiteSpace
  | atSign
  | fullStop
  | other
  deriving DecidableEq, Repr

/-- The class of a character: `\s`, `@`, `.`, or anything else. -/
def classify (c : Char) : CharClass :=
  if isWhiteSpace c then CharClass.whiteSpace
  else if c = '@' then CharClass.atSign
  else if c = '.' then CharClass.fullStop
  else CharClass.other

/-- The atom `\S`: any character that is not white space. -/
def nonSpace : RegularExpression CharClass :=
  RegularExpression.char CharClass.atSign + RegularExpression.char CharClass.fullStop +
    RegularExpression.char CharClass.other

/-- Any character at all, for the text around an unanchored match. -/
def anyChar : RegularExpression CharClass :=
  RegularExpression.char CharClass.whiteSpace + nonSpace

/-- The quantified atom `\S+`. -/
def nonSpaces : RegularExpression CharClass :=
  nonSpace * RegularExpression.star nonSpace

/-- The pattern `\S+@\S+\.\S+`. -/
def emailPattern : RegularExpression CharClass :=
  nonSpaces * (RegularExpression.char CharClass.atSign *
    (nonSpaces * (RegularExpression.char CharClass.fullStop * nonSpaces)))

/-- The call `/\S+@\S+\.\S+/.test(email)`: the pattern has no anchors, so it
is searched for anywhere in the string. -/
def test (email : String) : Bool :=
  (RegularExpression.star anyChar * (emailPattern * RegularExpression.star anyChar)).rmatch
    (email.data.map classify)

/-- The email test in the words of the specification: the string contains a
substring made of one or more characters that are not white space, `@`, one or
more characters that are not white space, `.`, and one or more characters that
are not white space. -/
def emailShaped (email : String) : Prop :=
  ∃ before a b c after : List Char,
    email.data = before ++ (a ++ ('@' :: (b ++ ('.' :: (c ++ after))))) ∧
    a ≠ [] ∧ b ≠ [] ∧ c ≠ [] ∧
    (∀ x ∈ a, isWhiteSpace x = false) ∧ (∀ x ∈ b, isWhiteSpace x = false) ∧
    (∀ x ∈ c, isWhiteSpace x = false)

/-- The state hooks of the component `Register`. -/
structure State where
  email : String
  username : String
  password : String
  confirmPassword : String
  isLoading : Bool
  error : Option String
  success : Bool
  deriving DecidableEq, Repr

/-- The `catch` block of `handleRegister`: the message chosen for a caught
error. -/
def errorMessage (err : JsError) : String :=
  match err.response with
  | some response =>
      if response.status = 409 then
        "Username or email already taken. Please try another."
      else
        match response.data with
        | some data =>
            if truthy data.message then data.message.getD ""
            else "An unexpected error occurred during registration."
        | none => "An unexpected error occurred during registration."
  | none => "Network error. Please check your connection."

/-- The handler `handleRegister`, run to completion from state `s` with `reply`
the outcome of the awaited `axios.post`. -/
def handleRegister (API_BASE_URL : String) (s : State) (reply : Reply Unit) :
    State × List Effect :=
  let s := { s with isLoading := true }
  let s := { s with error := none }
  let s := { s with success := false }
  if trimIsFalsy s.email || trimIsFalsy s.username || trimIsFalsy s.password then
    let s := { s with error := some "All fields are required." }
    ({ s with isLoading := false }, [Effect.preventDefault])
  else if length s.password < 6 then
    let s := { s with error := some "Password must be at least 6 characters long." }
    ({ s with isLoading := false }, [Effect.preventDefault])
  else if !test s.email then
    let s := { s with error := some "Please enter a valid email address." }
    ({ s with isLoading := false }, [Effect.preventDefault])
  else
    let post := Effect.request
      { method := Method.POST
        url := API_BASE_URL ++ "/register"
        data := some [("email", s.email), ("username", s.username), ("password", s.password)]
        bearer := none }
    match reply with
    | Reply.resolved _ =>
        let s := { s with success := true }
        ({ s with isLoading := false },
          [Effect.preventDefault, post, Effect.setTimeout (Callback.navigate "/login") 2000])
    | Reply.rejected err =>
        let s := { s with error := some (errorMessage err) }
        ({ s with isLoading := false },
          [Effect.preventDefault, post, Effect.consoleError "Registration failed:"])

end Register

/-! ## `pages/dashboard.jsx` -/

/-- A checklist as the server lists it. -/
structure Checklist where
  id : Int
  name : String
  deriving DecidableEq, Repr

namespace Dashboard

/-- The state hooks of the component `Dashboard`. -/
structure State where
  checklists : List Checklist
  newChecklistName : String
  isLoading : Bool
  error : Option String
  deriving DecidableEq, Repr

/-- The callback `fetchChecklists`, run to completion with `reply` the outcome
of the awaited `axios.get`. -/
def fetchChecklists (API_BASE_URL : String) (token : Option String) (s : State)
    (reply : Reply (List Checklist)) : State × List Effect :=
  let s := { s with isLoading := true }
  let s := { s with error := none }
  let get := Effect.request
    { method := Method.GET
      url := API_BASE_URL ++ "/checklist"
      data := none
      bearer := some token }
  match reply with
  | Reply.resolved res =>
      let s := { s with checklists := res }
      ({ s with isLoading := false }, [get])
  | Reply.rejected _ =>
      let s := { s with error := some "Failed to load checklists. Please try again." }
      ({ s with isLoading := false }, [get, Effect.consoleError "Failed to fetch checklists:"])

/-- The handler `addChecklist`, run to completion with `reply` the outcome of
the awaited `axios.post`; the final `fetchChecklists()` is not awaited. -/
def addChecklist (API_BASE_URL : String) (token : Option String) (s : State)
    (reply : Reply Unit) : State × List Effect :=
  if trimIsFalsy s.newChecklistName then
    (s, [Effect.preventDefault, Effect.alert "Checklist name cannot be empty."])
  else
    let post := Effect.request
      { method := Method.POST
        url := API_BASE_URL ++ "/checklist"
        data := some [("name", s.newChecklistName)]
        bearer := some token }
    match reply with
    | Reply.resolved _ =>
        ({ s with newChecklistName := "" },
          [Effect.preventDefault, post, Effect.fetchChecklists])
    | Reply.rejected _ =>
        ({ s with error := some "Failed to add checklist. Please try again." },
          [Effect.preventDefault, post, Effect.consoleError "Failed to add checklist:"])

/-- The handler `deleteChecklist`, with `confirmed` the answer given to
`window.confirm` and `reply` the outcome of the awaited `axios.delete`. -/
def deleteChecklist (API_BASE_URL : String) (token : Option String) (s : State) (id : Int)
    (confirmed : Bool) (reply : Reply Unit) : State × List Effect :=
  let ask := Effect.confirm
    "Are you sure you want to delete this checklist? This cannot be undone."
  if !confirmed then
    (s, [ask])
  else
    let del := Effect.request
      { method := Method.DELETE
        url := API_BASE_URL ++ "/checklist/" ++ numberToString id
        data := none
        bearer := some token }
    match reply with
    | Reply.resolved _ =>
        ({ s with checklists := s.checklists.filter fun item => item.id != id }, [ask, del])
    | Reply.rejected _ =>
        ({ s with error := some "Failed to delete checklist. Please try again." },
          [ask, del, Effect.consoleError "Failed to delete checklist:"])

/-- The handler `handleLogout`: `logout(); navigate('/login')`. -/
def handleLogout (s : State) : State × List Effect :=
  (s, [Effect.logout, Effect.navigate "/login"])

end Dashboard

/-! ## `pages/checklistdetail.jsx` -/

/-- An item of a checklist as the server lists it; its name may come under
either of the keys `itemName` and `name`. -/
structure Item where
  id : Int
  itemName : Option String
  name : Option String
  itemCompletionStatus : Bool
  deriving DecidableEq, Repr

namespace ChecklistDetail

/-- The state hooks of the component `ChecklistDetail`. -/
structure State where
  checklistName : String
  items : List Item
  newItemName : String
  isLoading : Bool
  error : Option String
  editingItemId : Option Int
  editedName : String
  deriving DecidableEq, Repr

/-- The value of `editingItemId` inside a template literal: `null`, or the
number. -/
def editingItemIdText : Option Int → String
  | none => "null"
  | some itemId => numberToString itemId

/-- The `catch` and `finally` blocks of `fetchChecklistDetails`, entered in
state `s` with the caught error, after the effects `done`. -/
def fetchFailed (s : State) (err : JsError) (done : List Effect) : State × List Effect :=
  let log := Effect.consoleError "Failed to fetch checklist details:"
  if err.message = "Checklist not found" then
    let s := { s with error := some "Checklist not found. Redirecting..." }
    ({ s with isLoading := false },
      done ++ [log, Effect.setTimeout (Callback.navigate "/") 2000])
  else if (err.response.map fun r => r.status) = some 401 then
    let s := { s with error := some "Unauthorized. Redirecting to login..." }
    ({ s with isLoading := false },
      done ++ [log, Effect.setTimeout (Callback.navigate "/login") 2000])
  else
    let s := { s with error := some "Failed to load checklist. Try again." }
    ({ s with isLoading := false }, done ++ [log])

/-- The lookup `checklistRes.data.data.find((c) => c.id.toString() === id)`. -/
def findChecklist (collection : List Checklist) (id : String) : Option Checklist :=
  collection.find? fun c => numberToString c.id == id

/-- The callback `fetchChecklistDetails`, run to completion for the path
parameter `id`, with `checklistRes` and `itemRes` the outcomes of the two
awaited `axios.get` calls (the second is consulted only when it is issued). -/
def fetchChecklistDetails (API_BASE_URL : String) (token : Option String) (id : String)
    (s : State) (checklistRes : Reply (List Checklist)) (itemRes : Reply (List Item)) :
    State × List Effect :=
  let s := { s with isLoading := true }
  let s := { s with error := none }
  let getChecklists := Effect.request
    { method := Method.GET
      url := API_BASE_URL ++ "/checklist"
      data := none
      bearer := some token }
  match checklistRes with
  | Reply.rejected err => fetchFailed s err [getChecklists]
  | Reply.resolved collection =>
      match findChecklist collection id with
      | none =>
          fetchFailed s { message := "Checklist not found", response := none } [getChecklists]
      | some checklist =>
          let s := { s with checklistName := checklist.name }
          let getItems := Effect.request
            { method := Method.GET
              url := API_BASE_URL ++ "/checklist/" ++ id ++ "/item"
              data := none
              bearer := some token }
          match itemRes with
          | Reply.rejected err => fetchFailed s err [getChecklists, getItems]
          | Reply.resolved items =>
              let s := { s with items := items }
              ({ s with isLoading := false }, [getChecklists, getItems])

/-- The handler `addChecklistItem`, run to completion with `reply` the outcome
of the awaited `axios.post`; the final `fetchChecklistDetails()` is not
awaited. -/
def addChecklistItem (API_BASE_URL : String) (token : Option String) (id : String)
    (s : State) (reply : Reply Unit) : State × List Effect :=
  if trimIsFalsy s.newItemName then
    (s, [Effect.preventDefault, Effect.alert "Item name is required"])
  else
    let post := Effect.request
      { method := Method.POST
        url := API_BASE_URL ++ "/checklist/" ++ id ++ "/item"
        data := some [("itemName", s.newItemName)]
        bearer := some token }
    match reply with
    | Reply.resolved _ =>
        ({ s with newItemName := "" },
          [Effect.preventDefault, post, Effect.fetchChecklistDetails])
    | Reply.rejected _ =>
        ({ s with error := some "Could not add item." },
          [Effect.preventDefault, post, Effect.consoleError "Add item error:"])

/-- The handler `deleteChecklistItem`, with `confirmed` the answer given to
`window.confirm` and `reply` the outcome of the awaited `axios.delete`. -/
def deleteChecklistItem (API_BASE_URL : String) (token : Option String) (id : String)
    (s : State) (itemId : Int) (confirmed : Bool) (reply : Reply Unit) :
    State × List Effect :=
  let ask := Effect.confirm "Delete this item?"
  if !confirmed then
    (s, [ask])
  else
    let del := Effect.request
      { method := Method.DELETE
        url := API_BASE_URL ++ "/checklist/" ++ id ++ "/item/" ++ numberToString itemId
        data := none
        bearer := some token }
    match reply with
    | Reply.resolved _ =>
        ({ s with items := s.items.filter fun item => item.id != itemId }, [ask, del])
    | Reply.rejected _ =>
        ({ s with error := some "Could not delete item." },
          [ask, del, Effect.consoleError "Delete item error:"])

/-- The handler `toggleItemStatus`, run to completion with `reply` the outcome
of the awaited `axios.put`; what a resolved reply carries is never read, and the
final `fetchChecklistDetails()` is not awaited. -/
def toggleItemStatus {α : Type} (API_BASE_URL : String) (token : Option String)
    (id : String) (s : State) (itemId : Int) (reply : Reply α) : State × List Effect :=
  let put := Effect.request
    { method := Method.PUT
      url := API_BASE_URL ++ "/checklist/" ++ id ++ "/item/" ++ numberToString itemId
      data := some []
      bearer := some token }
  match reply with
  | Reply.resolved _ => (s, [put, Effect.fetchChecklistDetails])
  | Reply.rejected _ =>
      ({ s with error := some "Could not toggle status." },
        [put, Effect.consoleError "Toggle status error:"])

/-- The handler `startEditing`. -/
def startEditing (s : State) (itemId : Int) (currentName : String) : State :=
  let s := { s with editingItemId := some itemId }
  { s with editedName := currentName }

/-- The handler `saveEditedItem`, run to completion with `reply` the outcome of
the awaited `axios.put`; the final `fetchChecklistDetails()` is not awaited. -/
def saveEditedItem (API_BASE_URL : String) (token : Option String) (id : String)
    (s : State) (reply : Reply Unit) : State × List Effect :=
  if trimIsFalsy s.editedName then
    ({ s with error := some "Item name cannot be empty!" },
      [Effect.setTimeout (Callback.setError none) 3000])
  else
    let put := Effect.request
      { method := Method.PUT
        url := API_BASE_URL ++ "/checklist/" ++ id ++ "/item/rename/" ++
          editingItemIdText s.editingItemId
        data := some [("itemName", s.editedName)]
        bearer := some token }
    match reply with
    | Reply.resolved _ =>
        let s := { s with editingItemId := none }
        ({ s with editedName := "" }, [put, Effect.fetchChecklistDetails])
    | Reply.rejected _ =>
        ({ s with error := some "Could not edit item." },
          [put, Effect.consoleError "Edit item error:"])

/-- The error caught by the `catch` block in a run of `fetchChecklistDetails`:
the rejection of the collection request, the `Error("Checklist not found")`
thrown after a failed lookup, or the rejection of the items request. -/
def raises (id : String) (checklistRes : Reply (List Checklist)) (itemRes : Reply (List Item))
    (err : JsError) : Prop :=
  checklistRes = Reply.rejected err ∨
  (∃ collection, checklistRes = Reply.resolved collection ∧
    findChecklist collection id = none ∧
    err = { message := "Checklist not found", response := none }) ∨
  (∃ collection checklist, checklistRes = Reply.resolved collection ∧
    findChecklist collection id = some checklist ∧ itemRes = Reply.rejected err)

/-- The inline handler of the cancel button,
`() => { setEditingItemId(null); setEditedName(''); }`; the `Escape` branch of
`onKeyDown` has the same body. -/
def cancelEditing (s : State) : State × List Effect :=
  let s := { s with editingItemId := none }
  ({ s with editedName := "" }, [])

/-- The inline handler `onKeyDown` of the edit input, for the key `e.key`:
`Enter` runs `saveEditedItem`, `Escape` resets the edit state, and any other
key does nothing here. -/
def onKeyDown (API_BASE_URL : String) (token : Option String) (id : String)
    (s : State) (key : String) (reply : Reply Unit) : State × List Effect :=
  if key = "Enter" then saveEditedItem API_BASE_URL token id s reply
  else if key = "Escape" then cancelEditing s
  else (s, [])

/-- The expression `item.itemName || item.name`. -/
def displayName (item : Item) : Option String :=
  if truthy item.itemName then item.itemName else item.name

/-- One `<li>` of the item list: its key, the state of the checkbox, the name
shown, the value of the inline edit input when `editingItemId === item.id`
(the name is then not shown as text), and whether the delete button is
rendered, `!editingItemId`. -/
structure ItemRow where
  key : Int
  checked : Bool
  name : Option String
  editInput : Option String
  deleteButton : Bool
  deriving DecidableEq, Repr

/-- The row rendered for an item. -/
def itemRow (s : State) (item : Item) : ItemRow :=
  { key := item.id
    checked := item.itemCompletionStatus
    name := displayName item
    editInput := if s.editingItemId = some item.id then some s.editedName else none
    deleteButton :=
      match s.editingItemId with
      | none => true
      | some itemId => itemId == 0 }

/-- What `ChecklistDetail` returns: the loading screen, the error screen (the
alert with the message and the button `Go to Dashboard`, nothing else), or the
checklist screen (heading, add-item form holding `newItemName`, and the item
list, which shows a placeholder when it has no rows). -/
inductive View where
  | loading
  | errorScreen (message : String)
  | checklist (checklistName : String) (newItemName : String) (rows : List ItemRow)
  deriving DecidableEq, Repr

/-- The render of `ChecklistDetail`: `if (isLoading) return ...`, then
`if (error) return ...`, then the checklist screen. -/
def render (s : State) : View :=
  if s.isLoading then View.loading
  else if truthy s.error then View.errorScreen (s.error.getD "")
  else View.checklist s.checklistName s.newItemName (s.items.map (itemRow s))

/-- The render contains the add-item form. -/
def View.showsForm : View → Bool
  | View.checklist _ _ _ => true
  | _ => false

/-- The render contains the item list. -/
def View.showsItems : View → Bool
  | View.checklist _ _ _ => true
  | _ => false

end ChecklistDetail

/-! ## Lemmas on the primitives -/

theorem dropWhile_eq_nil_of_forall_mem_dropWhile (p : Char → Bool) (l : List Char)
    (h : ∀ x ∈ l.dropWhile p, p x = true) : l.dropWhile p = [] := by
  induction l with
  | nil => rfl
  | cons a t ih =>
      by_cases ha : p a = true
      · simp only [List.dropWhile_cons_of_pos ha] at h ⊢
        exact ih h
      · have hd : (a :: t).dropWhile p = a :: t := List.dropWhile_cons_of_neg ha
        rw [hd] at h
        exact absurd (h a (List.mem_cons_self a t)) ha

theorem trim_data_eq_nil_iff (s : String) : (trim s).data = [] ↔ isBlank s := by
  unfold trim isBlank
  simp only [List.reverse_eq_nil_iff, List.dropWhile_eq_nil_iff, List.mem_reverse]
  constructor
  · intro h
    exact List.dropWhile_eq_nil_iff.mp (dropWhile_eq_nil_of_forall_mem_dropWhile _ _ h)
  · intro h x hx
    have : s.data.dropWhile isWhiteSpace = [] := List.dropWhile_eq_nil_iff.mpr h
    rw [this] at hx
    cases hx

theorem trimIsFalsy_iff (s : String) : trimIsFalsy s = true ↔ isBlank s := by
  rw [← trim_data_eq_nil_iff]
  unfold trimIsFalsy truthy
  cases h : trim s with
  | mk d =>
    cases d with
    | nil => simp
    | cons a t =>
      simp
      intro hh
      have := congrArg String.data hh
      simp at this

theorem hasNonWhiteSpace_iff_not_isBlank (s : String) : hasNonWhiteSpace s ↔ ¬ isBlank s := by
  unfold hasNonWhiteSpace isBlank
  simp

theorem trimIsFalsy_eq_false_iff (s : String) : trimIsFalsy s = false ↔ hasNonWhiteSpace s := by
  rw [hasNonWhiteSpace_iff_not_isBlank, ← trimIsFalsy_iff]
  simp

theorem truthy_iff (token : Option String) :
    truthy token = true ↔ ∃ t, token = some t ∧ t ≠ "" := by
  cases token with
  | none => simp [truthy]
  | some t => simp [truthy]

theorem truthy_eq_false_iff (token : Option String) :
    truthy token = false ↔ token = none ∨ token = some "" := by
  cases token with
  | none => simp [truthy]
  | some t => simp [truthy]

/-! ## The route guards -/

/-- C1 (as stated, refuted): a token that is present in the session as the
empty string is not given the wrapped children; `ProtectedRoute` redirects it to
`/login` like an absent token. -/
theorem C1_ProtectedRoute_empty_token_redirects :
    (some "" : Option String).isSome = true ∧
    ProtectedRoute (some "") Screen.Dashboard = Rendered.Navigate "/login" ∧
    ProtectedRoute (some "") Screen.Dashboard ≠ Rendered.children Screen.Dashboard := by
  decide

/-- C1 (amended): `ProtectedRoute` is a function of the session token alone.
For every token that is a non-empty string it renders exactly the wrapped
children; for every absent token and for the empty string it renders a redirect
to `/login` and does not render the wrapped children. -/
theorem C1_ProtectedRoute_by_token {α : Type} (token : Option String) (children : α) :
    ((∃ t, token = some t ∧ t ≠ "") →
      ProtectedRoute token children = Rendered.children children) ∧
    ((token = none ∨ token = some "") →
      ProtectedRoute token children = Rendered.Navigate "/login" ∧
      ProtectedRoute token children ≠ Rendered.children children) := by
  constructor
  · intro h
    have ht : truthy token = true := (truthy_iff token).mpr h
    simp [ProtectedRoute, ht]
  · intro h
    have ht : truthy token = false := (truthy_eq_false_iff token).mpr h
    simp [ProtectedRoute, ht]

/-- C1 (amended), at the tokens `"abc123"` and absent. -/
theorem C1_ProtectedRoute_by_token_witness :
    ProtectedRoute (some "abc123") Screen.Dashboard = Rendered.children Screen.Dashboard ∧
    (ProtectedRoute none Screen.Dashboard = Rendered.Navigate "/login" ∧
      ProtectedRoute none Screen.Dashboard ≠ Rendered.children Screen.Dashboard) :=
  ⟨(C1_ProtectedRoute_by_token (some "abc123") Screen.Dashboard).1
      ⟨"abc123", rfl, by decide⟩,
    (C1_ProtectedRoute_by_token none Screen.Dashboard).2 (Or.inl rfl)⟩

/-- C2 (as stated, refuted): for a token that is present in the session as the
empty string, `RedirectIfAuthenticated` renders the wrapped children and issues
no navigation. -/
theorem C2_RedirectIfAuthenticated_empty_token_renders :
    (some "" : Option String).isSome = true ∧
    (RedirectIfAuthenticated (some "") Screen.Login).render = Rendered.children Screen.Login ∧
    (RedirectIfAuthenticated (some "") Screen.Login).navigations = [] := by
  decide

/-- C2 (amended): for every token that is a non-empty string,
`RedirectIfAuthenticated` renders `null` and its effect issues one navigation,
to `/`; for every absent token and for the empty string it renders the wrapped
children and issues no navigation. -/
theorem C2_RedirectIfAuthenticated_by_token {α : Type} (token : Option String)
    (children : α) :
    ((∃ t, token = some t ∧ t ≠ "") →
      (RedirectIfAuthenticated token children).render = Rendered.null ∧
      (RedirectIfAuthenticated token children).navigations = ["/"]) ∧
    ((token = none ∨ token = some "") →
      (RedirectIfAuthenticated token children).render = Rendered.children children ∧
      (RedirectIfAuthenticated token children).navigations = []) := by
  constructor
  · intro h
    have ht : truthy token = true := (truthy_iff token).mpr h
    simp [RedirectIfAuthenticated, ht]
  · intro h
    have ht : truthy token = false := (truthy_eq_false_iff token).mpr h
    simp [RedirectIfAuthenticated, ht]

/-- C2 (amended), at the tokens `"abc123"` and absent. -/
theorem C2_RedirectIfAuthenticated_by_token_witness :
    ((RedirectIfAuthenticated (some "abc123") Screen.Login).render = Rendered.null ∧
      (RedirectIfAuthenticated (some "abc123") Screen.Login).navigations = ["/"]) ∧
    ((RedirectIfAuthenticated none Screen.Login).render = Rendered.children Screen.Login ∧
      (RedirectIfAuthenticated none Screen.Login).navigations = []) :=
  ⟨(C2_RedirectIfAuthenticated_by_token (some "abc123") Screen.Login).1
      ⟨"abc123", rfl, by decide⟩,
    (C2_RedirectIfAuthenticated_by_token none Screen.Login).2 (Or.inl rfl)⟩

/-- C3 (the code at the failing input): the route of `/checklist/:id` is not
wrapped in a guard, so `App` renders the checklist detail view at
`/checklist/1` with no token, and at every `/checklist/<id>` under every token;
of the five routes only those of `/login`, `/register` and `/` are wrapped, and
with no token `/` redirects to `/login`. -/
theorem C3_App_checklist_route_unguarded :
    App none ["checklist", "1"] = some (Rendered.children Screen.ChecklistDetail) ∧
    (∀ (token : Option String) (id : String),
      App token ["checklist", id] = some (Rendered.children Screen.ChecklistDetail)) ∧
    routes.map (fun r => r.element.isGuarded) = [true, true, false, false, true] ∧
    App none [] = some (Rendered.Navigate "/login") := by
  refine ⟨by decide, ?_, by decide, by decide⟩
  intro token id
  simp [App, matchRoute, routes, matchPath, renderElement]

/-! ## Validation of required inputs -/

/-- C4: for a new-checklist name, a new-item name or an edit draft that is
empty or only white space, `addChecklist`, `addChecklistItem` and
`saveEditedItem` issue no request and no reload and leave the list and the
input buffer as they were (the first two leave the whole state as it was);
`saveEditedItem` sets the error `Item name cannot be empty!`, schedules exactly
one timer, which clears the error after 3000 ms, and keeps `editingItemId` and
`editedName`. -/
theorem C4_blank_input_issues_no_request (API_BASE_URL : String) (token : Option String)
    (id : String) (reply : Reply Unit) :
    (∀ s : Dashboard.State, isBlank s.newChecklistName →
      requests (Dashboard.addChecklist API_BASE_URL token s reply).2 = [] ∧
      reloads (Dashboard.addChecklist API_BASE_URL token s reply).2 = [] ∧
      (Dashboard.addChecklist API_BASE_URL token s reply).1 = s) ∧
    (∀ s : ChecklistDetail.State, isBlank s.newItemName →
      requests (ChecklistDetail.addChecklistItem API_BASE_URL token id s reply).2 = [] ∧
      reloads (ChecklistDetail.addChecklistItem API_BASE_URL token id s reply).2 = [] ∧
      (ChecklistDetail.addChecklistItem API_BASE_URL token id s reply).1 = s) ∧
    (∀ s : ChecklistDetail.State, isBlank s.editedName →
      requests (ChecklistDetail.saveEditedItem API_BASE_URL token id s reply).2 = [] ∧
      reloads (ChecklistDetail.saveEditedItem API_BASE_URL token id s reply).2 = [] ∧
      (ChecklistDetail.saveEditedItem API_BASE_URL token id s reply).1.items = s.items ∧
      (ChecklistDetail.saveEditedItem API_BASE_URL token id s reply).1.newItemName =
        s.newItemName ∧
      (ChecklistDetail.saveEditedItem API_BASE_URL token id s reply).1.error =
        some "Item name cannot be empty!" ∧
      timers (ChecklistDetail.saveEditedItem API_BASE_URL token id s reply).2 =
        [(Callback.setError none, 3000)] ∧
      (ChecklistDetail.saveEditedItem API_BASE_URL token id s reply).1.editingItemId =
        s.editingItemId ∧
      (ChecklistDetail.saveEditedItem API_BASE_URL token id s reply).1.editedName =
        s.editedName) := by
  refine ⟨?_, ?_, ?_⟩
  · intro s h
    have hb : trimIsFalsy s.newChecklistName = true := (trimIsFalsy_iff _).mpr h
    simp [Dashboard.addChecklist, hb, requests, reloads]
  · intro s h
    have hb : trimIsFalsy s.newItemName = true := (trimIsFalsy_iff _).mpr h
    simp [ChecklistDetail.addChecklistItem, hb, requests, reloads]
  · intro s h
    have hb : trimIsFalsy s.editedName = true := (trimIsFalsy_iff _).mpr h
    simp [ChecklistDetail.saveEditedItem, hb, requests, reloads, timers]

/-- C4, at the draft of three spaces while item 7 is being edited. -/
theorem C4_blank_input_issues_no_request_witness :
    requests (ChecklistDetail.saveEditedItem "http://api" (some "abc123") "1"
      { checklistName := "Home", items := [], newItemName := "milk", isLoading := false,
        error := none, editingItemId := some 7, editedName := "   " }
      (Reply.resolved ())).2 = [] ∧
    (ChecklistDetail.saveEditedItem "http://api" (some "abc123") "1"
      { checklistName := "Home", items := [], newItemName := "milk", isLoading := false,
        error := none, editingItemId := some 7, editedName := "   " }
      (Reply.resolved ())).1.editingItemId = some 7 :=
  have h := (C4_blank_input_issues_no_request "http://api" (some "abc123") "1"
    (Reply.resolved ())).2.2
    { checklistName := "Home", items := [], newItemName := "milk", isLoading := false,
      error := none, editingItemId := some 7, editedName := "   " } (by decide)
  ⟨h.1, h.2.2.2.2.2.2.1⟩

/-- C5: when the username or the password is empty or only white space,
`handleLogin` issues no request, calls no session operation, navigates nowhere
(at once or by timer), sets the error `Please enter both username and
password.` and ends with `isLoading` false; when both contain a character that
is not white space it issues exactly one request, a POST to `/login` under the
base URL carrying the two fields as they were typed, whatever the reply. -/
theorem C5_handleLogin_validation (API_BASE_URL : String) (s : Login.State)
    (reply : Reply Login.Response) :
    ((isBlank s.username ∨ isBlank s.password) →
      requests (Login.handleLogin API_BASE_URL s reply).2 = [] ∧
      sessionCalls (Login.handleLogin API_BASE_URL s reply).2 = [] ∧
      navigations (Login.handleLogin API_BASE_URL s reply).2 = [] ∧
      timers (Login.handleLogin API_BASE_URL s reply).2 = [] ∧
      (Login.handleLogin API_BASE_URL s reply).1.error =
        some "Please enter both username and password." ∧
      (Login.handleLogin API_BASE_URL s reply).1.isLoading = false) ∧
    ((hasNonWhiteSpace s.username ∧ hasNonWhiteSpace s.password) →
      requests (Login.handleLogin API_BASE_URL s reply).2 =
        [{ method := Method.POST
           url := API_BASE_URL ++ "/login"
           data := some [("username", s.username), ("password", s.password)]
           bearer := none }]) := by
  constructor
  · intro h
    have hb : (trimIsFalsy s.username || trimIsFalsy s.password) = true := by
      rcases h with h | h
      · simp [(trimIsFalsy_iff _).mpr h]
      · simp [(trimIsFalsy_iff _).mpr h]
    simp [Login.handleLogin, hb, requests, sessionCalls, navigations, timers]
  · rintro ⟨hu, hp⟩
    have hu1 : trimIsFalsy s.username = false := (trimIsFalsy_eq_false_iff _).mpr hu
    have hp1 : trimIsFalsy s.password = false := (trimIsFalsy_eq_false_iff _).mpr hp
    cases reply <;>
      simp [Login.handleLogin, hu1, hp1, requests]

/-- C5, at the username `ann` with a password of two spaces, and at the
username ` ann` with the password `pw `. -/
theorem C5_handleLogin_validation_witness :
    requests (Login.handleLogin "http://api"
      { username := "ann", password := "  ", isLoading := false, error := none }
      (Reply.resolved { token := some "abc123" })).2 = [] ∧
    requests (Login.handleLogin "http://api"
      { username := " ann", password := "pw ", isLoading := false, error := none }
      (Reply.resolved { token := some "abc123" })).2 =
        [{ method := Method.POST
           url := "http://api" ++ "/login"
           data := some [("username", " ann"), ("password", "pw ")]
           bearer := none }] :=
  ⟨((C5_handleLogin_validation "http://api"
      { username := "ann", password := "  ", isLoading := false, error := none }
      (Reply.resolved { token := some "abc123" })).1 (Or.inr (by decide))).1,
    (C5_handleLogin_validation "http://api"
      { username := " ann", password := "pw ", isLoading := false, error := none }
      (Reply.resolved { token := some "abc123" })).2 ⟨by decide, by decide⟩⟩

/-! ## The email pattern -/

namespace Register

theorem classify_ne_whiteSpace_iff (c : Char) :
    classify c ≠ CharClass.whiteSpace ↔ isWhiteSpace c = false := by
  unfold classify
  by_cases h : isWhiteSpace c = true
  · simp [h]
  · simp only [h, Bool.false_eq_true, if_false]
    split_ifs <;> simp [h]

theorem classify_eq_atSign_iff (c : Char) : classify c = CharClass.atSign ↔ c = '@' := by
  unfold classify
  constructor
  · intro h
    split_ifs at h with h1 h2 h3
    exact h2
  · intro h
    subst h
    decide

theorem classify_eq_fullStop_iff (c : Char) : classify c = CharClass.fullStop ↔ c = '.' := by
  unfold classify
  constructor
  · intro h
    split_ifs at h with h1 h2 h3
    exact h3
  · intro h
    subst h
    decide

theorem flatten_map_singleton {α : Type} (u : List α) :
    (u.map fun a => [a]).flatten = u := by
  induction u with
  | nil => rfl
  | cons a t ih => simp [ih]

theorem rmatch_anyChar_singleton (a : CharClass) : anyChar.rmatch [a] = true := by
  cases a <;> decide

theorem rmatch_star_anyChar (x : List CharClass) :
    (RegularExpression.star anyChar).rmatch x = true := by
  rw [RegularExpression.star_rmatch_iff]
  refine ⟨x.map fun a => [a], (flatten_map_singleton x).symm, ?_⟩
  intro t ht
  obtain ⟨a, _, rfl⟩ := List.mem_map.mp ht
  exact ⟨by simp, rmatch_anyChar_singleton a⟩

theorem rmatch_nonSpace_iff (x : List CharClass) :
    nonSpace.rmatch x = true ↔ ∃ a, x = [a] ∧ a ≠ CharClass.whiteSpace := by
  unfold nonSpace
  simp only [RegularExpression.add_rmatch_iff, RegularExpression.char_rmatch_iff]
  constructor
  · rintro ((h | h) | h) <;> exact ⟨_, h, by decide⟩
  · rintro ⟨a, rfl, ha⟩
    cases a <;> simp at ha ⊢

theorem rmatch_star_nonSpace_iff (x : List CharClass) :
    (RegularExpression.star nonSpace).rmatch x = true ↔
      ∀ a ∈ x, a ≠ CharClass.whiteSpace := by
  rw [RegularExpression.star_rmatch_iff]
  constructor
  · rintro ⟨S, rfl, hS⟩ a ha
    obtain ⟨t, ht, hat⟩ := List.mem_flatten.mp ha
    obtain ⟨b, rfl, hb⟩ := (rmatch_nonSpace_iff t).mp (hS t ht).2
    rw [List.mem_singleton] at hat
    exact hat ▸ hb
  · intro h
    refine ⟨x.map fun a => [a], (flatten_map_singleton x).symm, ?_⟩
    intro t ht
    obtain ⟨a, ha, rfl⟩ := List.mem_map.mp ht
    exact ⟨by simp, (rmatch_nonSpace_iff [a]).mpr ⟨a, rfl, h a ha⟩⟩

theorem rmatch_nonSpaces_iff (x : List CharClass) :
    nonSpaces.rmatch x = true ↔ x ≠ [] ∧ ∀ a ∈ x, a ≠ CharClass.whiteSpace := by
  unfold nonSpaces
  rw [RegularExpression.mul_rmatch_iff]
  constructor
  · rintro ⟨t, u, rfl, ht, hu⟩
    obtain ⟨b, rfl, hb⟩ := (rmatch_nonSpace_iff t).mp ht
    refine ⟨by simp, ?_⟩
    intro a ha
    rcases List.mem_append.mp ha with h | h
    · rw [List.mem_singleton] at h
      exact h ▸ hb
    · exact (rmatch_star_nonSpace_iff u).mp hu a h
  · rintro ⟨hne, h⟩
    cases x with
    | nil => exact absurd rfl hne
    | cons b u =>
      refine ⟨[b], u, rfl, (rmatch_nonSpace_iff [b]).mpr ⟨b, rfl, h b (List.mem_cons_self b u)⟩,
        (rmatch_star_nonSpace_iff u).mpr fun a ha => h a (List.mem_cons_of_mem b ha)⟩

theorem rmatch_emailPattern_iff (x : List CharClass) :
    emailPattern.rmatch x = true ↔
      ∃ a b c : List CharClass,
        x = a ++ (CharClass.atSign :: (b ++ (CharClass.fullStop :: c))) ∧
        (a ≠ [] ∧ ∀ y ∈ a, y ≠ CharClass.whiteSpace) ∧
        (b ≠ [] ∧ ∀ y ∈ b, y ≠ CharClass.whiteSpace) ∧
        (c ≠ [] ∧ ∀ y ∈ c, y ≠ CharClass.whiteSpace) := by
  unfold emailPattern
  simp only [RegularExpression.mul_rmatch_iff, RegularExpression.char_rmatch_iff,
    rmatch_nonSpaces_iff]
  constructor
  · rintro ⟨a, _, rfl, ha, _, _, rfl, rfl, b, _, rfl, hb, _, c, rfl, rfl, hc⟩
    exact ⟨a, b, c, by simp, ha, hb, hc⟩
  · rintro ⟨a, b, c, rfl, ha, hb, hc⟩
    exact ⟨a, _, rfl, ha, [CharClass.atSign], _, rfl, rfl, b, _, rfl, hb,
      [CharClass.fullStop], c, rfl, rfl, hc⟩

theorem forall_map_classify_iff (l : List Char) :
    (∀ y ∈ l.map classify, y ≠ CharClass.whiteSpace) ↔ ∀ x ∈ l, isWhiteSpace x = false := by
  simp only [List.mem_map, forall_exists_index, and_imp, forall_apply_eq_imp_iff₂,
    classify_ne_whiteSpace_iff]

/-- The embedded regular expression and the wording of the specification
describe the same set of strings. -/
theorem test_iff_emailShaped (email : String) : test email = true ↔ emailShaped email := by
  unfold test emailShaped
  rw [RegularExpression.mul_rmatch_iff]
  constructor
  · rintro ⟨t, u, htu, -, hu⟩
    rw [RegularExpression.mul_rmatch_iff] at hu
    obtain ⟨v, z, rfl, hv, -⟩ := hu
    obtain ⟨a, b, c, rfl, ha, hb, hc⟩ := (rmatch_emailPattern_iff v).mp hv
    obtain ⟨t1, r1, h1, rfl, hr1⟩ := List.map_eq_append_iff.mp htu
    obtain ⟨v1, z1, rfl, hv1, rfl⟩ := List.map_eq_append_iff.mp hr1
    obtain ⟨a1, r2, rfl, rfl, hr2⟩ := List.map_eq_append_iff.mp hv1
    obtain ⟨x1, r3, rfl, hx1, hr3⟩ := List.map_eq_cons_iff.mp hr2
    obtain ⟨b1, r4, rfl, rfl, hr4⟩ := List.map_eq_append_iff.mp hr3
    obtain ⟨x2, c1, rfl, hx2, rfl⟩ := List.map_eq_cons_iff.mp hr4
    rw [classify_eq_atSign_iff] at hx1
    rw [classify_eq_fullStop_iff] at hx2
    subst hx1 hx2
    refine ⟨t1, a1, b1, c1, z1, by simp [h1], ?_, ?_, ?_, ?_, ?_, ?_⟩
    · intro h; exact ha.1 (by simp [h])
    · intro h; exact hb.1 (by simp [h])
    · intro h; exact hc.1 (by simp [h])
    · exact (forall_map_classify_iff a1).mp ha.2
    · exact (forall_map_classify_iff b1).mp hb.2
    · exact (forall_map_classify_iff c1).mp hc.2
  · rintro ⟨before, a, b, c, after, h, ha, hb, hc, ha1, hb1, hc1⟩
    refine ⟨before.map classify,
      (a ++ ('@' :: (b ++ ('.' :: (c ++ after))))).map classify, by simp [h],
      rmatch_star_anyChar _, ?_⟩
    rw [RegularExpression.mul_rmatch_iff]
    refine ⟨(a ++ ('@' :: (b ++ ('.' :: c)))).map classify, after.map classify, by simp,
      ?_, rmatch_star_anyChar _⟩
    rw [rmatch_emailPattern_iff]
    refine ⟨a.map classify, b.map classify, c.map classify, ?_, ⟨?_, ?_⟩, ⟨?_, ?_⟩, ⟨?_, ?_⟩⟩
    · simp [(classify_eq_atSign_iff '@').mpr rfl, (classify_eq_fullStop_iff '.').mpr rfl]
    · simpa using ha
    · exact (forall_map_classify_iff a).mpr ha1
    · simpa using hb
    · exact (forall_map_classify_iff b).mpr hb1
    · simpa using hc
    · exact (forall_map_classify_iff c).mpr hc1

end Register

/-! ## Registration -/

/-- C6: `handleRegister` issues a request exactly when email, username and
password each contain a character that is not white space, the password has
length at least 6 and the email contains the shape `local@domain.tld`; the
request is then the one POST to `/register` under the base URL.  Otherwise no
request is issued and the error is that of the first failing check: `All fields
are required.`, then `Password must be at least 6 characters long.`, then
`Please enter a valid email address.`.  With the password `abc` and email and
username not blank, the error is the one on the password length and nothing is
sent. -/
theorem C6_handleRegister_validation (API_BASE_URL : String) (s : Register.State)
    (reply : Reply Unit) :
    (requests (Register.handleRegister API_BASE_URL s reply).2 ≠ [] ↔
      (hasNonWhiteSpace s.email ∧ hasNonWhiteSpace s.username ∧
        hasNonWhiteSpace s.password) ∧
      6 ≤ length s.password ∧ Register.emailShaped s.email) ∧
    (requests (Register.handleRegister API_BASE_URL s reply).2 ≠ [] →
      requests (Register.handleRegister API_BASE_URL s reply).2 =
        [{ method := Method.POST
           url := API_BASE_URL ++ "/register"
           data := some [("email", s.email), ("username", s.username),
             ("password", s.password)]
           bearer := none }]) ∧
    ((isBlank s.email ∨ isBlank s.username ∨ isBlank s.password) →
      (Register.handleRegister API_BASE_URL s reply).1.error =
        some "All fields are required.") ∧
    ((hasNonWhiteSpace s.email ∧ hasNonWhiteSpace s.username ∧
        hasNonWhiteSpace s.password) → length s.password < 6 →
      (Register.handleRegister API_BASE_URL s reply).1.error =
        some "Password must be at least 6 characters long.") ∧
    ((hasNonWhiteSpace s.email ∧ hasNonWhiteSpace s.username ∧
        hasNonWhiteSpace s.password) → 6 ≤ length s.password →
      ¬ Register.emailShaped s.email →
      (Register.handleRegister API_BASE_URL s reply).1.error =
        some "Please enter a valid email address.") ∧
    ((hasNonWhiteSpace s.email ∧ hasNonWhiteSpace s.username) → s.password = "abc" →
      (Register.handleRegister API_BASE_URL s reply).1.error =
        some "Password must be at least 6 characters long." ∧
      requests (Register.handleRegister API_BASE_URL s reply).2 = []) := by
  have habc : trimIsFalsy "abc" = false := by decide
  have hlen : length "abc" = 3 := by decide
  simp only [← trimIsFalsy_iff, ← trimIsFalsy_eq_false_iff, ← Register.test_iff_emailShaped]
  cases he : trimIsFalsy s.email <;> cases hu : trimIsFalsy s.username <;>
    cases hp : trimIsFalsy s.password <;> by_cases hl : length s.password < 6 <;>
    cases ht : Register.test s.email <;> cases reply <;>
    simp [Register.handleRegister, he, hu, hp, hl, ht, requests] <;>
    first
      | omega
      | (refine ⟨by omega, ?_⟩; intro h; rw [h, hlen] at hl; omega)
      | (intro h; rw [h, hlen] at hl; omega)
      | (intro h; rw [h, habc] at hp; cases hp)

/-- C6, at the scenario of the specification: password `abc`. -/
theorem C6_handleRegister_validation_witness :
    (Register.handleRegister "http://api"
      { email := "ann@example.org", username := "ann", password := "abc",
        confirmPassword := "", isLoading := false, error := none, success := false }
      (Reply.resolved ())).1.error = some "Password must be at least 6 characters long." ∧
    requests (Register.handleRegister "http://api"
      { email := "ann@example.org", username := "ann", password := "abc",
        confirmPassword := "", isLoading := false, error := none, success := false }
      (Reply.resolved ())).2 = [] :=
  (C6_handleRegister_validation "http://api"
    { email := "ann@example.org", username := "ann", password := "abc",
      confirmPassword := "", isLoading := false, error := none, success := false }
    (Reply.resolved ())).2.2.2.2.2 ⟨by decide, by decide⟩ rfl

/-! ## Failure messages of the two forms -/

theorem truthy_some_of_ne_empty (m : String) (h : m ≠ "") : truthy (some m) = true := by
  simp [truthy, h]

theorem Register.handleRegister_rejected (API_BASE_URL : String) (s : Register.State)
    (err : JsError)
    (hv : (hasNonWhiteSpace s.email ∧ hasNonWhiteSpace s.username ∧
      hasNonWhiteSpace s.password) ∧ 6 ≤ length s.password ∧ Register.emailShaped s.email) :
    Register.handleRegister API_BASE_URL s (Reply.rejected err) =
      ({ s with isLoading := false, error := some (Register.errorMessage err),
                success := false },
        [Effect.preventDefault,
          Effect.request
            { method := Method.POST
              url := API_BASE_URL ++ "/register"
              data := some [("email", s.email), ("username", s.username),
                ("password", s.password)]
              bearer := none },
          Effect.consoleError "Registration failed:"]) := by
  obtain ⟨⟨he, hu, hp⟩, hl, ht⟩ := hv
  rw [← trimIsFalsy_eq_false_iff] at he hu hp
  rw [← Register.test_iff_emailShaped] at ht
  have hl1 : ¬ length s.password < 6 := by omega
  simp [Register.handleRegister, he, hu, hp, hl1, ht]

theorem Login.handleLogin_rejected (API_BASE_URL : String) (s : Login.State) (err : JsError)
    (hv : hasNonWhiteSpace s.username ∧ hasNonWhiteSpace s.password) :
    Login.handleLogin API_BASE_URL s (Reply.rejected err) =
      ({ s with isLoading := false, error := some (Login.errorMessage err) },
        [Effect.preventDefault,
          Effect.request
            { method := Method.POST
              url := API_BASE_URL ++ "/login"
              data := some [("username", s.username), ("password", s.password)]
              bearer := none },
          Effect.consoleError "Login failed:"]) := by
  obtain ⟨hu, hp⟩ := hv
  rw [← trimIsFalsy_eq_false_iff] at hu hp
  simp [Login.handleLogin, hu, hp]

/-- C7: when the registration request was issued and failed, the error shown
is `Username or email already taken. Please try another.` whenever the response
status is 409, message or not; otherwise the message of the response body when
that is a non-empty string; otherwise `An unexpected error occurred during
registration.` when there is a response; and `Network error. Please check your
connection.` when there is none.  In every such run `success` ends false, no
navigation is made or scheduled, and `isLoading` ends false. -/
theorem C7_handleRegister_failure_message (API_BASE_URL : String) (s : Register.State)
    (err : JsError)
    (hv : (hasNonWhiteSpace s.email ∧ hasNonWhiteSpace s.username ∧
      hasNonWhiteSpace s.password) ∧ 6 ≤ length s.password ∧ Register.emailShaped s.email) :
    (∀ response, err.response = some response → response.status = 409 →
      (Register.handleRegister API_BASE_URL s (Reply.rejected err)).1.error =
        some "Username or email already taken. Please try another.") ∧
    (∀ response data m, err.response = some response → response.status ≠ 409 →
      response.data = some data → data.message = some m → m ≠ "" →
      (Register.handleRegister API_BASE_URL s (Reply.rejected err)).1.error = some m) ∧
    (∀ response, err.response = some response → response.status ≠ 409 →
      (∀ data m, response.data = some data → data.message = some m → m = "") →
      (Register.handleRegister API_BASE_URL s (Reply.rejected err)).1.error =
        some "An unexpected error occurred during registration.") ∧
    (err.response = none →
      (Register.handleRegister API_BASE_URL s (Reply.rejected err)).1.error =
        some "Network error. Please check your connection.") ∧
    (Register.handleRegister API_BASE_URL s (Reply.rejected err)).1.success = false ∧
    navigations (Register.handleRegister API_BASE_URL s (Reply.rejected err)).2 = [] ∧
    timers (Register.handleRegister API_BASE_URL s (Reply.rejected err)).2 = [] ∧
    (Register.handleRegister API_BASE_URL s (Reply.rejected err)).1.isLoading = false := by
  rw [Register.handleRegister_rejected API_BASE_URL s err hv]
  refine ⟨?_, ?_, ?_, ?_, rfl, rfl, rfl, rfl⟩
  · intro response hr hs
    simp [Register.errorMessage, hr, hs]
  · intro response data m hr hs hd hm hne
    simp [Register.errorMessage, hr, hs, hd, hm, truthy_some_of_ne_empty m hne]
  · intro response hr hs hno
    cases hd : response.data with
    | none => simp [Register.errorMessage, hr, hs, hd]
    | some data =>
      cases hm : data.message with
      | none => simp [Register.errorMessage, hr, hs, hd, hm, truthy]
      | some m =>
        have := hno data m hd hm
        subst this
        simp [Register.errorMessage, hr, hs, hd, hm, truthy]
  · intro hr
    simp [Register.errorMessage, hr]

/-- C7, at the scenario of the specification: valid fields, and a 409 response
that carries a message of its own. -/
theorem C7_handleRegister_failure_message_witness :
    (Register.handleRegister "http://api"
      { email := "ann@example.org", username := "ann", password := "secret1",
        confirmPassword := "", isLoading := false, error := none, success := true }
      (Reply.rejected
        { message := "Request failed with status code 409",
          response := some { status := 409, data := some { message := some "Conflict" } } })
      ).1.error = some "Username or email already taken. Please try another." :=
  (C7_handleRegister_failure_message "http://api"
    { email := "ann@example.org", username := "ann", password := "secret1",
      confirmPassword := "", isLoading := false, error := none, success := true }
    { message := "Request failed with status code 409",
      response := some { status := 409, data := some { message := some "Conflict" } } }
    ⟨⟨by decide, by decide, by decide⟩, by decide,
      (Register.test_iff_emailShaped "ann@example.org").mp (by decide)⟩).1
    { status := 409, data := some { message := some "Conflict" } } rfl rfl

/-- C8: when the login request was issued and failed, the error shown is
`Invalid username or password. Please try again.` whenever the response status
is 401, message or not; otherwise the message of the response body when that is
a non-empty string; otherwise `An unexpected error occurred during login.` when
there is a response; and `Network error. Please check your connection.` when
there is none.  In every such run no session operation is called, no navigation
is made or scheduled, and `isLoading` ends false. -/
theorem C8_handleLogin_failure_message (API_BASE_URL : String) (s : Login.State)
    (err : JsError) (hv : hasNonWhiteSpace s.username ∧ hasNonWhiteSpace s.password) :
    (∀ response, err.response = some response → response.status = 401 →
      (Login.handleLogin API_BASE_URL s (Reply.rejected err)).1.error =
        some "Invalid username or password. Please try again.") ∧
    (∀ response data m, err.response = some response → response.status ≠ 401 →
      response.data = some data → data.message = some m → m ≠ "" →
      (Login.handleLogin API_BASE_URL s (Reply.rejected err)).1.error = some m) ∧
    (∀ response, err.response = some response → response.status ≠ 401 →
      (∀ data m, response.data = some data → data.message = some m → m = "") →
      (Login.handleLogin API_BASE_URL s (Reply.rejected err)).1.error =
        some "An unexpected error occurred during login.") ∧
    (err.response = none →
      (Login.handleLogin API_BASE_URL s (Reply.rejected err)).1.error =
        some "Network error. Please check your connection.") ∧
    sessionCalls (Login.handleLogin API_BASE_URL s (Reply.rejected err)).2 = [] ∧
    navigations (Login.handleLogin API_BASE_URL s (Reply.rejected err)).2 = [] ∧
    timers (Login.handleLogin API_BASE_URL s (Reply.rejected err)).2 = [] ∧
    (Login.handleLogin API_BASE_URL s (Reply.rejected err)).1.isLoading = false := by
  rw [Login.handleLogin_rejected API_BASE_URL s err hv]
  refine ⟨?_, ?_, ?_, ?_, rfl, rfl, rfl, rfl⟩
  · intro response hr hs
    simp [Login.errorMessage, hr, hs]
  · intro response data m hr hs hd hm hne
    simp [Login.errorMessage, hr, hs, hd, hm, truthy_some_of_ne_empty m hne]
  · intro response hr hs hno
    cases hd : response.data with
    | none => simp [Login.errorMessage, hr, hs, hd]
    | some data =>
      cases hm : data.message with
      | none => simp [Login.errorMessage, hr, hs, hd, hm, truthy]
      | some m =>
        have := hno data m hd hm
        subst this
        simp [Login.errorMessage, hr, hs, hd, hm, truthy]
  · intro hr
    simp [Login.errorMessage, hr]

/-- C8, at a 401 response that carries a message of its own and at a 500
response with the message `Database down`. -/
theorem C8_handleLogin_failure_message_witness :
    (Login.handleLogin "http://api"
      { username := "ann", password := "secret1", isLoading := false, error := none }
      (Reply.rejected
        { message := "Request failed with status code 401",
          response := some { status := 401, data := some { message := some "No" } } })
      ).1.error = some "Invalid username or password. Please try again." ∧
    (Login.handleLogin "http://api"
      { username := "ann", password := "secret1", isLoading := false, error := none }
      (Reply.rejected
        { message := "Request failed with status code 500",
          response := some { status := 500, data := some { message := some "Database down" } } })
      ).1.error = some "Database down" :=
  ⟨(C8_handleLogin_failure_message "http://api"
      { username := "ann", password := "secret1", isLoading := false, error := none }
      { message := "Request failed with status code 401",
        response := some { status := 401, data := some { message := some "No" } } }
      ⟨by decide, by decide⟩).1
      { status := 401, data := some { message := some "No" } } rfl rfl,
    (C8_handleLogin_failure_message "http://api"
      { username := "ann", password := "secret1", isLoading := false, error := none }
      { message := "Request failed with status code 500",
        response := some { status := 500, data := some { message := some "Database down" } } }
      ⟨by decide, by decide⟩).2.1
      { status := 500, data := some { message := some "Database down" } }
      { message := some "Database down" } "Database down" rfl (by decide) rfl rfl
      (by decide)⟩

/-! ## Login and logout over the session -/

theorem Login.handleLogin_resolved (API_BASE_URL : String) (s : Login.State)
    (res : Login.Response)
    (hv : hasNonWhiteSpace s.username ∧ hasNonWhiteSpace s.password) :
    Login.handleLogin API_BASE_URL s (Reply.resolved res) =
      ({ s with isLoading := false, error := none },
        [Effect.preventDefault,
          Effect.request
            { method := Method.POST
              url := API_BASE_URL ++ "/login"
              data := some [("username", s.username), ("password", s.password)]
              bearer := none },
          Effect.login res.token,
          Effect.navigate "/"]) := by
  obtain ⟨hu, hp⟩ := hv
  rw [← trimIsFalsy_eq_false_iff] at hu hp
  simp [Login.handleLogin, hu, hp]

/-- C9 (as stated, refuted): the successful login response whose token is the
empty string leaves the Session Store holding the empty string, and the render
of `ProtectedRoute` that follows redirects to `/login` instead of showing the
dashboard. -/
theorem C9_login_with_empty_token_redirects :
    (Session.after { token := none }
      (Login.handleLogin "http://api"
        { username := "ann", password := "secret1", isLoading := false, error := none }
        (Reply.resolved { token := some "" })).2).token = some "" ∧
    ProtectedRoute
      (Session.after { token := none }
        (Login.handleLogin "http://api"
          { username := "ann", password := "secret1", isLoading := false, error := none }
          (Reply.resolved { token := some "" })).2).token
      Screen.Dashboard = Rendered.Navigate "/login" := by
  decide

/-- C9 (amended): for every successful login response with token `t`, issued
from a form whose two fields are not blank, `handleLogin` calls `login` with
exactly `t` and then navigates to `/`, and the Session Store then holds `t`;
when `t` is a non-empty string, `ProtectedRoute` then renders the wrapped
dashboard, also through the route `/` of `App`.  `handleLogout` calls `logout`
and then navigates to `/login`, after which the same render redirects to
`/login`. -/
theorem C9_login_logout_round_trip (API_BASE_URL : String) (s : Login.State)
    (t : Option String) (session : Session) (d : Dashboard.State)
    (hv : hasNonWhiteSpace s.username ∧ hasNonWhiteSpace s.password) :
    (Login.handleLogin API_BASE_URL s (Reply.resolved { token := t })).2 =
      [Effect.preventDefault,
        Effect.request
          { method := Method.POST
            url := API_BASE_URL ++ "/login"
            data := some [("username", s.username), ("password", s.password)]
            bearer := none },
        Effect.login t,
        Effect.navigate "/"] ∧
    (session.after (Login.handleLogin API_BASE_URL s (Reply.resolved { token := t })).2).token
      = t ∧
    ((∃ x, t = some x ∧ x ≠ "") →
      ProtectedRoute
        (session.after
          (Login.handleLogin API_BASE_URL s (Reply.resolved { token := t })).2).token
        Screen.Dashboard = Rendered.children Screen.Dashboard ∧
      App
        (session.after
          (Login.handleLogin API_BASE_URL s (Reply.resolved { token := t })).2).token
        [] = some (Rendered.children Screen.Dashboard)) ∧
    (Dashboard.handleLogout d).2 = [Effect.logout, Effect.navigate "/login"] ∧
    ProtectedRoute
      ((session.after
        (Login.handleLogin API_BASE_URL s (Reply.resolved { token := t })).2).after
          (Dashboard.handleLogout d).2).token
      Screen.Dashboard = Rendered.Navigate "/login" ∧
    App
      ((session.after
        (Login.handleLogin API_BASE_URL s (Reply.resolved { token := t })).2).after
          (Dashboard.handleLogout d).2).token
      [] = some (Rendered.Navigate "/login") := by
  rw [Login.handleLogin_resolved API_BASE_URL s { token := t } hv]
  refine ⟨rfl, rfl, ?_, rfl, rfl, rfl⟩
  intro h
  have ht : truthy t = true := (truthy_iff t).mpr h
  constructor
  · simp [Session.after, Session.login, ProtectedRoute, ht]
  · simp [Session.after, Session.login, App, matchRoute, routes, matchPath, renderElement,
      ProtectedRoute, ht, Rendered.andThen]

/-- C9 (amended), at the scenario of the specification: the response with
token `abc123` leaves the Session Store holding `abc123`, and the dashboard is
rendered. -/
theorem C9_login_logout_round_trip_witness :
    (Session.after { token := none }
      (Login.handleLogin "http://api"
        { username := "ann", password := "secret1", isLoading := false, error := none }
        (Reply.resolved { token := some "abc123" })).2).token = some "abc123" ∧
    ProtectedRoute
      (Session.after { token := none }
        (Login.handleLogin "http://api"
          { username := "ann", password := "secret1", isLoading := false, error := none }
          (Reply.resolved { token := some "abc123" })).2).token
      Screen.Dashboard = Rendered.children Screen.Dashboard :=
  have h := C9_login_logout_round_trip "http://api"
    { username := "ann", password := "secret1", isLoading := false, error := none }
    (some "abc123") { token := none }
    { checklists := [], newChecklistName := "", isLoading := false, error := none }
    ⟨by decide, by decide⟩
  ⟨h.2.1, (h.2.2.1 ⟨"abc123", rfl, by decide⟩).1⟩

/-! ## Loading a checklist that is not in the collection -/

theorem ChecklistDetail.findChecklist_eq_none_iff (collection : List Checklist) (id : String) :
    ChecklistDetail.findChecklist collection id = none ↔
      ∀ c ∈ collection, numberToString c.id ≠ id := by
  simp [ChecklistDetail.findChecklist]

theorem ChecklistDetail.requests_fetchFailed (s : ChecklistDetail.State) (err : JsError)
    (done : List Effect) :
    requests (ChecklistDetail.fetchFailed s err done).2 = requests done := by
  unfold ChecklistDetail.fetchFailed
  split_ifs <;> simp [requests, List.filterMap_append]

/-- C10: for every path id and every fetched collection, the lookup of
`fetchChecklistDetails` fails, and the items request is left out, exactly when
no entry has an id whose decimal rendering equals the path id (so the path id
`01` does not find the checklist with id 1).  In that case the error is
`Checklist not found. Redirecting...`, the only request of the run is the one
for the collection, the item list is as before, exactly one timer is scheduled,
a navigation to `/` after 2000 ms, no navigation is made at once, and
`isLoading` ends false.  When an entry matches, the items request is issued. -/
theorem C10_fetchChecklistDetails_not_found (API_BASE_URL : String) (token : Option String)
    (id : String) (s : ChecklistDetail.State) (collection : List Checklist)
    (itemRes : Reply (List Item)) :
    (ChecklistDetail.findChecklist collection id = none ↔
      ∀ c ∈ collection, numberToString c.id ≠ id) ∧
    (requests (ChecklistDetail.fetchChecklistDetails API_BASE_URL token id s
        (Reply.resolved collection) itemRes).2 =
        [{ method := Method.GET, url := API_BASE_URL ++ "/checklist", data := none,
           bearer := some token }] ↔
      ∀ c ∈ collection, numberToString c.id ≠ id) ∧
    ((∀ c ∈ collection, numberToString c.id ≠ id) →
      (ChecklistDetail.fetchChecklistDetails API_BASE_URL token id s
        (Reply.resolved collection) itemRes).1.error =
          some "Checklist not found. Redirecting..." ∧
      (ChecklistDetail.fetchChecklistDetails API_BASE_URL token id s
        (Reply.resolved collection) itemRes).1.items = s.items ∧
      timers (ChecklistDetail.fetchChecklistDetails API_BASE_URL token id s
        (Reply.resolved collection) itemRes).2 = [(Callback.navigate "/", 2000)] ∧
      navigations (ChecklistDetail.fetchChecklistDetails API_BASE_URL token id s
        (Reply.resolved collection) itemRes).2 = [] ∧
      (ChecklistDetail.fetchChecklistDetails API_BASE_URL token id s
        (Reply.resolved collection) itemRes).1.isLoading = false) ∧
    ((∃ c ∈ collection, numberToString c.id = id) →
      requests (ChecklistDetail.fetchChecklistDetails API_BASE_URL token id s
        (Reply.resolved collection) itemRes).2 =
        [{ method := Method.GET, url := API_BASE_URL ++ "/checklist", data := none,
           bearer := some token },
         { method := Method.GET, url := API_BASE_URL ++ "/checklist/" ++ id ++ "/item",
           data := none, bearer := some token }]) ∧
    ChecklistDetail.findChecklist [{ id := 1, name := "Home" }] "01" = none ∧
    ChecklistDetail.findChecklist [{ id := 1, name := "Home" }] "1" =
      some { id := 1, name := "Home" } := by
  have hfind := ChecklistDetail.findChecklist_eq_none_iff collection id
  refine ⟨hfind, ?_, ?_, ?_, by decide, by decide⟩
  · rw [← hfind]
    cases h : ChecklistDetail.findChecklist collection id with
    | none =>
      simp only [ChecklistDetail.fetchChecklistDetails, h,
        ChecklistDetail.requests_fetchFailed]
      simp [requests]
    | some c =>
      cases itemRes <;>
        simp only [ChecklistDetail.fetchChecklistDetails, h,
          ChecklistDetail.requests_fetchFailed] <;>
        simp [requests]
  · intro hno
    have h : ChecklistDetail.findChecklist collection id = none := hfind.mpr hno
    simp [ChecklistDetail.fetchChecklistDetails, h, ChecklistDetail.fetchFailed, timers,
      navigations]
  · rintro ⟨c, hc, hid⟩
    cases h : ChecklistDetail.findChecklist collection id with
    | none => exact absurd hid (hfind.mp h c hc)
    | some c1 =>
      cases itemRes <;>
        simp only [ChecklistDetail.fetchChecklistDetails, h,
          ChecklistDetail.requests_fetchFailed] <;>
        simp [requests]

/-- C10, at the path id `01` and the collection holding the checklist 1. -/
theorem C10_fetchChecklistDetails_not_found_witness :
    (ChecklistDetail.fetchChecklistDetails "http://api" (some "abc123") "01"
      { checklistName := "", items := [], newItemName := "", isLoading := true,
        error := none, editingItemId := none, editedName := "" }
      (Reply.resolved [{ id := 1, name := "Home" }]) (Reply.resolved [])).1.error =
        some "Checklist not found. Redirecting..." ∧
    timers (ChecklistDetail.fetchChecklistDetails "http://api" (some "abc123") "01"
      { checklistName := "", items := [], newItemName := "", isLoading := true,
        error := none, editingItemId := none, editedName := "" }
      (Reply.resolved [{ id := 1, name := "Home" }]) (Reply.resolved [])).2 =
        [(Callback.navigate "/", 2000)] :=
  have h := (C10_fetchChecklistDetails_not_found "http://api" (some "abc123") "01"
    { checklistName := "", items := [], newItemName := "", isLoading := true,
      error := none, editingItemId := none, editedName := "" }
    [{ id := 1, name := "Home" }] (Reply.resolved [])).2.2.1 (by decide)
  ⟨h.1, h.2.2.1⟩

/-! ## Toggling and deleting -/

/-- C11 (as stated, refuted): when the toggle request of item 7 fails,
`toggleItemStatus` sets `Could not toggle status.` and starts no reload; the
only request of the run is the PUT itself. -/
theorem C11_toggleItemStatus_failed_starts_no_reload :
    reloads (ChecklistDetail.toggleItemStatus "http://api" (some "abc123") "1"
      { checklistName := "Home",
        items := [{ id := 7, itemName := some "milk", name := none,
                    itemCompletionStatus := false }],
        newItemName := "", isLoading := false, error := none, editingItemId := none,
        editedName := "" }
      7 (Reply.rejected { message := "Network Error", response := none } : Reply Unit)).2
      = [] ∧
    (ChecklistDetail.toggleItemStatus "http://api" (some "abc123") "1"
      { checklistName := "Home",
        items := [{ id := 7, itemName := some "milk", name := none,
                    itemCompletionStatus := false }],
        newItemName := "", isLoading := false, error := none, editingItemId := none,
        editedName := "" }
      7 (Reply.rejected { message := "Network Error", response := none } : Reply Unit)).1.error
      = some "Could not toggle status." := by
  decide

/-- C11 (amended): for every item id, `toggleItemStatus` issues one PUT with an
empty body to `/checklist/<id>/item/<itemId>`; when that request succeeds,
whatever the reply carries, `fetchChecklistDetails` is called once, after the
request, and the state is left to the reload; when it fails, no reload is
started, the error is `Could not toggle status.` and the rest of the state is
as before. -/
theorem C11_toggleItemStatus_reloads_on_success {α : Type} (API_BASE_URL : String)
    (token : Option String) (id : String) (s : ChecklistDetail.State) (itemId : Int) :
    (∀ res : α,
      ChecklistDetail.toggleItemStatus API_BASE_URL token id s itemId (Reply.resolved res) =
        (s,
          [Effect.request
            { method := Method.PUT
              url := API_BASE_URL ++ "/checklist/" ++ id ++ "/item/" ++ numberToString itemId
              data := some []
              bearer := some token },
           Effect.fetchChecklistDetails]) ∧
      reloads (ChecklistDetail.toggleItemStatus API_BASE_URL token id s itemId
        (Reply.resolved res)).2 = [Effect.fetchChecklistDetails]) ∧
    (∀ err : JsError,
      ChecklistDetail.toggleItemStatus API_BASE_URL token id s itemId
          (Reply.rejected err : Reply α) =
        ({ s with error := some "Could not toggle status." },
          [Effect.request
            { method := Method.PUT
              url := API_BASE_URL ++ "/checklist/" ++ id ++ "/item/" ++ numberToString itemId
              data := some []
              bearer := some token },
           Effect.consoleError "Toggle status error:"]) ∧
      reloads (ChecklistDetail.toggleItemStatus API_BASE_URL token id s itemId
        (Reply.rejected err : Reply α)).2 = []) := by
  constructor
  · intro res
    exact ⟨rfl, by simp [ChecklistDetail.toggleItemStatus, reloads]⟩
  · intro err
    exact ⟨rfl, by simp [ChecklistDetail.toggleItemStatus, reloads]⟩

/-- C12: for `deleteChecklistItem` and for `deleteChecklist`, on every list and
every target id.  Accepted and successful: the new list is the old one without
the entries whose id is the target, the others in their order (it is a sublist
of the old one and holds exactly the old entries with another id), the DELETE is
the only request and no reload is started.  Declined: no request, the state is
as before.  Failed: only the error message is set, the list is as before, and
no reload is started. -/
theorem C12_delete_by_identity (API_BASE_URL : String) (token : Option String)
    (id : String) (s : ChecklistDetail.State) (d : Dashboard.State) (target : Int)
    (reply : Reply Unit) (err : JsError) :
    ((ChecklistDetail.deleteChecklistItem API_BASE_URL token id s target true
        (Reply.resolved ())).1 =
        { s with items := s.items.filter fun item => item.id != target } ∧
      ((s.items.filter fun item => item.id != target).Sublist s.items ∧
        ∀ item, item ∈ (s.items.filter fun item => item.id != target) ↔
          item ∈ s.items ∧ item.id ≠ target) ∧
      requests (ChecklistDetail.deleteChecklistItem API_BASE_URL token id s target true
        (Reply.resolved ())).2 =
        [{ method := Method.DELETE
           url := API_BASE_URL ++ "/checklist/" ++ id ++ "/item/" ++ numberToString target
           data := none
           bearer := some token }] ∧
      reloads (ChecklistDetail.deleteChecklistItem API_BASE_URL token id s target true
        (Reply.resolved ())).2 = []) ∧
    ((ChecklistDetail.deleteChecklistItem API_BASE_URL token id s target false reply).1 = s ∧
      requests (ChecklistDetail.deleteChecklistItem API_BASE_URL token id s target false
        reply).2 = []) ∧
    ((ChecklistDetail.deleteChecklistItem API_BASE_URL token id s target true
        (Reply.rejected err)).1 = { s with error := some "Could not delete item." } ∧
      reloads (ChecklistDetail.deleteChecklistItem API_BASE_URL token id s target true
        (Reply.rejected err)).2 = []) ∧
    ((Dashboard.deleteChecklist API_BASE_URL token d target true (Reply.resolved ())).1 =
        { d with checklists := d.checklists.filter fun c => c.id != target } ∧
      ((d.checklists.filter fun c => c.id != target).Sublist d.checklists ∧
        ∀ c, c ∈ (d.checklists.filter fun c => c.id != target) ↔
          c ∈ d.checklists ∧ c.id ≠ target) ∧
      requests (Dashboard.deleteChecklist API_BASE_URL token d target true
        (Reply.resolved ())).2 =
        [{ method := Method.DELETE
           url := API_BASE_URL ++ "/checklist/" ++ numberToString target
           data := none
           bearer := some token }] ∧
      reloads (Dashboard.deleteChecklist API_BASE_URL token d target true
        (Reply.resolved ())).2 = []) ∧
    ((Dashboard.deleteChecklist API_BASE_URL token d target false reply).1 = d ∧
      requests (Dashboard.deleteChecklist API_BASE_URL token d target false reply).2 = []) ∧
    ((Dashboard.deleteChecklist API_BASE_URL token d target true (Reply.rejected err)).1 =
        { d with error := some "Failed to delete checklist. Please try again." } ∧
      reloads (Dashboard.deleteChecklist API_BASE_URL token d target true
        (Reply.rejected err)).2 = []) := by
  refine ⟨⟨?_, ⟨List.filter_sublist _, ?_⟩, ?_, ?_⟩, ⟨?_, ?_⟩, ⟨?_, ?_⟩,
    ⟨?_, ⟨List.filter_sublist _, ?_⟩, ?_, ?_⟩, ⟨?_, ?_⟩, ⟨?_, ?_⟩⟩
  · simp [ChecklistDetail.deleteChecklistItem]
  · intro item
    simp [List.mem_filter]
  · simp [ChecklistDetail.deleteChecklistItem, requests]
  · simp [ChecklistDetail.deleteChecklistItem, reloads]
  · simp [ChecklistDetail.deleteChecklistItem]
  · simp [ChecklistDetail.deleteChecklistItem, requests]
  · simp [ChecklistDetail.deleteChecklistItem]
  · simp [ChecklistDetail.deleteChecklistItem, reloads]
  · simp [Dashboard.deleteChecklist]
  · intro c
    simp [List.mem_filter]
  · simp [Dashboard.deleteChecklist, requests]
  · simp [Dashboard.deleteChecklist, reloads]
  · simp [Dashboard.deleteChecklist]
  · simp [Dashboard.deleteChecklist, requests]
  · simp [Dashboard.deleteChecklist]
  · simp [Dashboard.deleteChecklist, reloads]

/-! ## Failures of the load -/

theorem ChecklistDetail.fetchFailed_not_found (s : ChecklistDetail.State) (err : JsError)
    (done : List Effect) (h : err.message = "Checklist not found") :
    ChecklistDetail.fetchFailed s err done =
      ({ s with error := some "Checklist not found. Redirecting...", isLoading := false },
        done ++ [Effect.consoleError "Failed to fetch checklist details:",
          Effect.setTimeout (Callback.navigate "/") 2000]) := by
  simp [ChecklistDetail.fetchFailed, h]

theorem ChecklistDetail.fetchFailed_unauthorized (s : ChecklistDetail.State) (err : JsError)
    (done : List Effect) (h : err.message ≠ "Checklist not found")
    (h401 : ∃ r, err.response = some r ∧ r.status = 401) :
    ChecklistDetail.fetchFailed s err done =
      ({ s with error := some "Unauthorized. Redirecting to login...", isLoading := false },
        done ++ [Effect.consoleError "Failed to fetch checklist details:",
          Effect.setTimeout (Callback.navigate "/login") 2000]) := by
  obtain ⟨r, hr, hs⟩ := h401
  simp [ChecklistDetail.fetchFailed, h, hr, hs]

theorem ChecklistDetail.fetchFailed_other (s : ChecklistDetail.State) (err : JsError)
    (done : List Effect) (h : err.message ≠ "Checklist not found")
    (h401 : ∀ r, err.response = some r → r.status ≠ 401) :
    ChecklistDetail.fetchFailed s err done =
      ({ s with error := some "Failed to load checklist. Try again.", isLoading := false },
        done ++ [Effect.consoleError "Failed to fetch checklist details:"]) := by
  cases hr : err.response with
  | none => simp [ChecklistDetail.fetchFailed, h, hr]
  | some r => simp [ChecklistDetail.fetchFailed, h, hr, h401 r hr]

theorem ChecklistDetail.fetchChecklistDetails_of_raises (API_BASE_URL : String)
    (token : Option String) (id : String) (s : ChecklistDetail.State)
    (checklistRes : Reply (List Checklist)) (itemRes : Reply (List Item)) (err : JsError)
    (h : ChecklistDetail.raises id checklistRes itemRes err) :
    ∃ (s1 : ChecklistDetail.State) (done : List Effect),
      ChecklistDetail.fetchChecklistDetails API_BASE_URL token id s checklistRes itemRes =
        ChecklistDetail.fetchFailed s1 err done ∧
      s1.items = s.items ∧ timers done = [] ∧ navigations done = [] ∧
      sessionCalls done = [] := by
  rcases h with h | ⟨collection, h, hf, he⟩ | ⟨collection, checklist, h, hf, hi⟩
  · subst h
    exact ⟨_, _, rfl, rfl, rfl, rfl, rfl⟩
  · subst h he
    refine ⟨{ s with isLoading := true, error := none },
      [Effect.request
        { method := Method.GET, url := API_BASE_URL ++ "/checklist", data := none,
          bearer := some token }], ?_, rfl, rfl, rfl, rfl⟩
    simp only [ChecklistDetail.fetchChecklistDetails, hf]
  · subst h hi
    refine ⟨{ s with isLoading := true, error := none, checklistName := checklist.name },
      [Effect.request
        { method := Method.GET, url := API_BASE_URL ++ "/checklist", data := none,
          bearer := some token },
       Effect.request
        { method := Method.GET, url := API_BASE_URL ++ "/checklist/" ++ id ++ "/item",
          data := none, bearer := some token }], ?_, rfl, rfl, rfl, rfl⟩
    simp only [ChecklistDetail.fetchChecklistDetails, hf]

theorem ChecklistDetail.sessionCalls_fetchFailed (s : ChecklistDetail.State) (err : JsError)
    (done : List Effect) :
    sessionCalls (ChecklistDetail.fetchFailed s err done).2 = sessionCalls done := by
  unfold ChecklistDetail.fetchFailed
  split_ifs <;> simp [sessionCalls, List.filter_append]

theorem Session.after_of_sessionCalls_eq_nil (session : Session) (effects : List Effect)
    (h : sessionCalls effects = []) : session.after effects = session := by
  induction effects generalizing session with
  | nil => rfl
  | cons e rest ih =>
    cases e <;> simp [sessionCalls, List.filter_cons] at h <;>
      simp only [Session.after] <;> exact ih session (by simpa [sessionCalls] using h)

theorem ChecklistDetail.sessionCalls_fetchChecklistDetails (API_BASE_URL : String)
    (token : Option String) (id : String) (s : ChecklistDetail.State)
    (checklistRes : Reply (List Checklist)) (itemRes : Reply (List Item)) :
    sessionCalls (ChecklistDetail.fetchChecklistDetails API_BASE_URL token id s
      checklistRes itemRes).2 = [] := by
  cases checklistRes with
  | rejected err =>
    simp only [ChecklistDetail.fetchChecklistDetails,
      ChecklistDetail.sessionCalls_fetchFailed]
    rfl
  | resolved collection =>
    cases hf : ChecklistDetail.findChecklist collection id with
    | none =>
      simp only [ChecklistDetail.fetchChecklistDetails, hf,
        ChecklistDetail.sessionCalls_fetchFailed]
      rfl
    | some checklist =>
      cases itemRes with
      | rejected err =>
        simp only [ChecklistDetail.fetchChecklistDetails, hf,
          ChecklistDetail.sessionCalls_fetchFailed]
        rfl
      | resolved items =>
        simp only [ChecklistDetail.fetchChecklistDetails, hf]
        rfl

/-- C13 (the code at the failing input): no run of `fetchChecklistDetails`
calls `logout` or `login`, so the session holds the same token afterwards.  With
the token `abc123` and a collection request rejected with status 401, the load
sets `Unauthorized. Redirecting to login...` and schedules the navigation to
`/login` after 2000 ms while the token stays in the session, and
`RedirectIfAuthenticated` on `/login` then renders `null` and navigates back to
`/`. -/
theorem C13_unauthorized_load_keeps_token :
    (∀ (API_BASE_URL : String) (token : Option String) (id : String)
        (s : ChecklistDetail.State) (checklistRes : Reply (List Checklist))
        (itemRes : Reply (List Item)) (session : Session),
      sessionCalls (ChecklistDetail.fetchChecklistDetails API_BASE_URL token id s
        checklistRes itemRes).2 = [] ∧
      session.after (ChecklistDetail.fetchChecklistDetails API_BASE_URL token id s
        checklistRes itemRes).2 = session) ∧
    (ChecklistDetail.fetchChecklistDetails "http://api" (some "abc123") "1"
      { checklistName := "", items := [], newItemName := "", isLoading := true,
        error := none, editingItemId := none, editedName := "" }
      (Reply.rejected
        { message := "Request failed with status code 401",
          response := some { status := 401, data := none } })
      (Reply.resolved [])) =
      ({ checklistName := "", items := [], newItemName := "", isLoading := false,
         error := some "Unauthorized. Redirecting to login...", editingItemId := none,
         editedName := "" },
        [Effect.request
          { method := Method.GET, url := "http://api" ++ "/checklist", data := none,
            bearer := some (some "abc123") },
         Effect.consoleError "Failed to fetch checklist details:",
         Effect.setTimeout (Callback.navigate "/login") 2000]) ∧
    RedirectIfAuthenticated
      (Session.after { token := some "abc123" }
        (ChecklistDetail.fetchChecklistDetails "http://api" (some "abc123") "1"
          { checklistName := "", items := [], newItemName := "", isLoading := true,
            error := none, editingItemId := none, editedName := "" }
          (Reply.rejected
            { message := "Request failed with status code 401",
              response := some { status := 401, data := none } })
          (Reply.resolved [])).2).token
      Screen.Login = { render := Rendered.null, navigations := ["/"] } := by
  refine ⟨?_, by decide, by decide⟩
  intro API_BASE_URL token id s checklistRes itemRes session
  have h := ChecklistDetail.sessionCalls_fetchChecklistDetails API_BASE_URL token id s
    checklistRes itemRes
  exact ⟨h, Session.after_of_sessionCalls_eq_nil session _ h⟩

/-- C14: for every error caught in a run of `fetchChecklistDetails`, from
either request or from the failed lookup, the outcome is decided in this order:
a message equal to `Checklist not found` gives `Checklist not found.
Redirecting...` and exactly one timer, a navigation to `/` after 2000 ms;
otherwise a response status of 401 gives `Unauthorized. Redirecting to
login...` and exactly one timer, a navigation to `/login` after 2000 ms; every
other error gives `Failed to load checklist. Try again.` and no timer.  In all
three cases no navigation is made at once, the item list is as before and
`isLoading` ends false.  In a run without error the item list is the fetched
one, the error is null and `isLoading` ends false. -/
theorem C14_fetchChecklistDetails_failure_classes (API_BASE_URL : String)
    (token : Option String) (id : String) (s : ChecklistDetail.State)
    (checklistRes : Reply (List Checklist)) (itemRes : Reply (List Item)) :
    (∀ err, ChecklistDetail.raises id checklistRes itemRes err →
      (err.message = "Checklist not found" →
        (ChecklistDetail.fetchChecklistDetails API_BASE_URL token id s checklistRes
          itemRes).1.error = some "Checklist not found. Redirecting..." ∧
        timers (ChecklistDetail.fetchChecklistDetails API_BASE_URL token id s checklistRes
          itemRes).2 = [(Callback.navigate "/", 2000)]) ∧
      (err.message ≠ "Checklist not found" →
        (∃ r, err.response = some r ∧ r.status = 401) →
        (ChecklistDetail.fetchChecklistDetails API_BASE_URL token id s checklistRes
          itemRes).1.error = some "Unauthorized. Redirecting to login..." ∧
        timers (ChecklistDetail.fetchChecklistDetails API_BASE_URL token id s checklistRes
          itemRes).2 = [(Callback.navigate "/login", 2000)]) ∧
      (err.message ≠ "Checklist not found" →
        (∀ r, err.response = some r → r.status ≠ 401) →
        (ChecklistDetail.fetchChecklistDetails API_BASE_URL token id s checklistRes
          itemRes).1.error = some "Failed to load checklist. Try again." ∧
        timers (ChecklistDetail.fetchChecklistDetails API_BASE_URL token id s checklistRes
          itemRes).2 = []) ∧
      navigations (ChecklistDetail.fetchChecklistDetails API_BASE_URL token id s
        checklistRes itemRes).2 = [] ∧
      (ChecklistDetail.fetchChecklistDetails API_BASE_URL token id s checklistRes
        itemRes).1.items = s.items ∧
      (ChecklistDetail.fetchChecklistDetails API_BASE_URL token id s checklistRes
        itemRes).1.isLoading = false) ∧
    (∀ collection checklist items, checklistRes = Reply.resolved collection →
      ChecklistDetail.findChecklist collection id = some checklist →
      itemRes = Reply.resolved items →
      (ChecklistDetail.fetchChecklistDetails API_BASE_URL token id s checklistRes
        itemRes).1.items = items ∧
      (ChecklistDetail.fetchChecklistDetails API_BASE_URL token id s checklistRes
        itemRes).1.error = none ∧
      (ChecklistDetail.fetchChecklistDetails API_BASE_URL token id s checklistRes
        itemRes).1.isLoading = false ∧
      timers (ChecklistDetail.fetchChecklistDetails API_BASE_URL token id s checklistRes
        itemRes).2 = [] ∧
      navigations (ChecklistDetail.fetchChecklistDetails API_BASE_URL token id s
        checklistRes itemRes).2 = []) := by
  constructor
  · intro err hraise
    obtain ⟨s1, done, hrun, hitems, ht, hn, -⟩ :=
      ChecklistDetail.fetchChecklistDetails_of_raises API_BASE_URL token id s checklistRes
        itemRes err hraise
    rw [hrun]
    refine ⟨?_, ?_, ?_, ?_, ?_, ?_⟩
    · intro h
      rw [ChecklistDetail.fetchFailed_not_found s1 err done h]
      simp [timers, List.filterMap_append] at ht ⊢
      exact ht
    · intro h h401
      rw [ChecklistDetail.fetchFailed_unauthorized s1 err done h h401]
      simp [timers, List.filterMap_append] at ht ⊢
      exact ht
    · intro h h401
      rw [ChecklistDetail.fetchFailed_other s1 err done h h401]
      simp [timers, List.filterMap_append] at ht ⊢
      exact ht
    · unfold ChecklistDetail.fetchFailed
      split_ifs <;> simp [navigations, List.filterMap_append] at hn ⊢ <;> exact hn
    · unfold ChecklistDetail.fetchFailed
      split_ifs <;> exact hitems
    · unfold ChecklistDetail.fetchFailed
      split_ifs <;> rfl
  · intro collection checklist items hc hf hi
    subst hc hi
    simp [ChecklistDetail.fetchChecklistDetails, hf, timers, navigations]

/-- C14, at an items request rejected with status 401 after the checklist 1
was found. -/
theorem C14_fetchChecklistDetails_failure_classes_witness :
    (ChecklistDetail.fetchChecklistDetails "http://api" (some "abc123") "1"
      { checklistName := "", items := [], newItemName := "", isLoading := true,
        error := none, editingItemId := none, editedName := "" }
      (Reply.resolved [{ id := 1, name := "Home" }])
      (Reply.rejected
        { message := "Request failed with status code 401",
          response := some { status := 401, data := none } })).1.error =
        some "Unauthorized. Redirecting to login..." ∧
    timers (ChecklistDetail.fetchChecklistDetails "http://api" (some "abc123") "1"
      { checklistName := "", items := [], newItemName := "", isLoading := true,
        error := none, editingItemId := none, editedName := "" }
      (Reply.resolved [{ id := 1, name := "Home" }])
      (Reply.rejected
        { message := "Request failed with status code 401",
          response := some { status := 401, data := none } })).2 =
        [(Callback.navigate "/login", 2000)] :=
  ((C14_fetchChecklistDetails_failure_classes "http://api" (some "abc123") "1"
    { checklistName := "", items := [], newItemName := "", isLoading := true,
      error := none, editingItemId := none, editedName := "" }
    (Reply.resolved [{ id := 1, name := "Home" }])
    (Reply.rejected
      { message := "Request failed with status code 401",
        response := some { status := 401, data := none } })).1
    { message := "Request failed with status code 401",
      response := some { status := 401, data := none } }
    (Or.inr (Or.inr ⟨[{ id := 1, name := "Home" }], { id := 1, name := "Home" }, rfl,
      by decide, rfl⟩))).2.1 (by decide) ⟨{ status := 401, data := none }, rfl, rfl⟩

/-! ## Action errors on the detail view -/

/-- C15 (the code at the failing input): from a loaded view with one item, an
`addChecklistItem` whose request fails sets `Could not add item.`, and the
render that follows is the error screen alone: neither the add-item form nor the
item list is shown.  The same render results from every state that is not
loading and whose error is one of the five action errors. -/
theorem C15_action_error_replaces_the_view :
    ChecklistDetail.render
      (ChecklistDetail.addChecklistItem "http://api" (some "abc123") "1"
        { checklistName := "Home",
          items := [{ id := 7, itemName := some "milk", name := none,
                      itemCompletionStatus := false }],
          newItemName := "eggs", isLoading := false, error := none,
          editingItemId := none, editedName := "" }
        (Reply.rejected { message := "Network Error", response := none })).1 =
      ChecklistDetail.View.errorScreen "Could not add item." ∧
    (ChecklistDetail.render
      (ChecklistDetail.addChecklistItem "http://api" (some "abc123") "1"
        { checklistName := "Home",
          items := [{ id := 7, itemName := some "milk", name := none,
                      itemCompletionStatus := false }],
          newItemName := "eggs", isLoading := false, error := none,
          editingItemId := none, editedName := "" }
        (Reply.rejected { message := "Network Error", response := none })).1).showsForm =
      false ∧
    (ChecklistDetail.render
      (ChecklistDetail.addChecklistItem "http://api" (some "abc123") "1"
        { checklistName := "Home",
          items := [{ id := 7, itemName := some "milk", name := none,
                      itemCompletionStatus := false }],
          newItemName := "eggs", isLoading := false, error := none,
          editingItemId := none, editedName := "" }
        (Reply.rejected { message := "Network Error", response := none })).1).showsItems =
      false ∧
    (∀ s : ChecklistDetail.State,
      ChecklistDetail.render { s with isLoading := false, error := some "Could not add item." } =
        ChecklistDetail.View.errorScreen "Could not add item." ∧
      ChecklistDetail.render
          { s with isLoading := false, error := some "Could not delete item." } =
        ChecklistDetail.View.errorScreen "Could not delete item." ∧
      ChecklistDetail.render
          { s with isLoading := false, error := some "Could not toggle status." } =
        ChecklistDetail.View.errorScreen "Could not toggle status." ∧
      ChecklistDetail.render
          { s with isLoading := false, error := some "Could not edit item." } =
        ChecklistDetail.View.errorScreen "Could not edit item." ∧
      ChecklistDetail.render
          { s with isLoading := false, error := some "Item name cannot be empty!" } =
        ChecklistDetail.View.errorScreen "Item name cannot be empty!") := by
  refine ⟨by decide, by decide, by decide, ?_⟩
  intro s
  refine ⟨?_, ?_, ?_, ?_, ?_⟩ <;> simp [ChecklistDetail.render, truthy]

/-! ## Renaming an item -/

theorem ChecklistDetail.saveEditedItem_of_hasNonWhiteSpace (API_BASE_URL : String)
    (token : Option String) (id : String) (s : ChecklistDetail.State) (reply : Reply Unit)
    (h : hasNonWhiteSpace s.editedName) :
    ChecklistDetail.saveEditedItem API_BASE_URL token id s reply =
      match reply with
      | Reply.resolved _ =>
          ({ s with editingItemId := none, editedName := "" },
            [Effect.request
              { method := Method.PUT
                url := API_BASE_URL ++ "/checklist/" ++ id ++ "/item/rename/" ++
                  ChecklistDetail.editingItemIdText s.editingItemId
                data := some [("itemName", s.editedName)]
                bearer := some token },
             Effect.fetchChecklistDetails])
      | Reply.rejected _ =>
          ({ s with error := some "Could not edit item." },
            [Effect.request
              { method := Method.PUT
                url := API_BASE_URL ++ "/checklist/" ++ id ++ "/item/rename/" ++
                  ChecklistDetail.editingItemIdText s.editingItemId
                data := some [("itemName", s.editedName)]
                bearer := some token },
             Effect.consoleError "Edit item error:"]) := by
  have hb : trimIsFalsy s.editedName = false := (trimIsFalsy_eq_false_iff _).mpr h
  cases reply <;> simp [ChecklistDetail.saveEditedItem, hb]

/-- C16: `startEditing(id, name)` sets the edit state to exactly `(id, name)`
whatever it was and touches nothing else, and an item row shows the edit input
only if its id is the one in `editingItemId`.  Committing, by the save button
(`saveEditedItem`) or by the key `Enter`, a draft that contains a character that
is not white space issues exactly one request, the PUT to
`/checklist/<id>/item/rename/<editingItemId>` with body `itemName: draft`; on
success the edit state becomes `(null, '')` and the load is called once; on
failure the edit state is kept, the error is `Could not edit item.` and no
reload is started.  The key `Escape` and the cancel button set the edit state to
`(null, '')`, change nothing else and issue no effect at all. -/
theorem C16_inline_rename (API_BASE_URL : String) (token : Option String) (id : String)
    (s : ChecklistDetail.State) (itemId : Int) (currentName : String) (reply : Reply Unit)
    (err : JsError) (item : Item) :
    ChecklistDetail.startEditing s itemId currentName =
      { s with editingItemId := some itemId, editedName := currentName } ∧
    ((ChecklistDetail.itemRow s item).editInput ≠ none → s.editingItemId = some item.id) ∧
    ChecklistDetail.onKeyDown API_BASE_URL token id s "Enter" reply =
      ChecklistDetail.saveEditedItem API_BASE_URL token id s reply ∧
    (hasNonWhiteSpace s.editedName →
      requests (ChecklistDetail.saveEditedItem API_BASE_URL token id s reply).2 =
        [{ method := Method.PUT
           url := API_BASE_URL ++ "/checklist/" ++ id ++ "/item/rename/" ++
             ChecklistDetail.editingItemIdText s.editingItemId
           data := some [("itemName", s.editedName)]
           bearer := some token }] ∧
      (ChecklistDetail.saveEditedItem API_BASE_URL token id s (Reply.resolved ())).1 =
        { s with editingItemId := none, editedName := "" } ∧
      reloads (ChecklistDetail.saveEditedItem API_BASE_URL token id s (Reply.resolved ())).2 =
        [Effect.fetchChecklistDetails] ∧
      (ChecklistDetail.saveEditedItem API_BASE_URL token id s (Reply.rejected err)).1 =
        { s with error := some "Could not edit item." } ∧
      reloads (ChecklistDetail.saveEditedItem API_BASE_URL token id s (Reply.rejected err)).2 =
        []) ∧
    (hasNonWhiteSpace currentName →
      requests (ChecklistDetail.saveEditedItem API_BASE_URL token id
        (ChecklistDetail.startEditing s itemId currentName) reply).2 =
        [{ method := Method.PUT
           url := API_BASE_URL ++ "/checklist/" ++ id ++ "/item/rename/" ++
             numberToString itemId
           data := some [("itemName", currentName)]
           bearer := some token }]) ∧
    ChecklistDetail.onKeyDown API_BASE_URL token id s "Escape" reply =
      ({ s with editingItemId := none, editedName := "" }, []) ∧
    ChecklistDetail.cancelEditing s =
      ({ s with editingItemId := none, editedName := "" }, []) := by
  refine ⟨rfl, ?_, ?_, ?_, ?_, ?_, rfl⟩
  · intro h
    by_contra hne
    exact h (by simp [ChecklistDetail.itemRow, hne])
  · simp [ChecklistDetail.onKeyDown]
  · intro h
    refine ⟨?_, ?_, ?_, ?_, ?_⟩
    · rw [ChecklistDetail.saveEditedItem_of_hasNonWhiteSpace _ _ _ _ _ h]
      cases reply <;> simp [requests]
    · rw [ChecklistDetail.saveEditedItem_of_hasNonWhiteSpace _ _ _ _ _ h]
    · rw [ChecklistDetail.saveEditedItem_of_hasNonWhiteSpace _ _ _ _ _ h]
      simp [reloads]
    · rw [ChecklistDetail.saveEditedItem_of_hasNonWhiteSpace _ _ _ _ _ h]
    · rw [ChecklistDetail.saveEditedItem_of_hasNonWhiteSpace _ _ _ _ _ h]
      simp [reloads]
  · intro h
    have h1 : hasNonWhiteSpace (ChecklistDetail.startEditing s itemId currentName).editedName :=
      h
    rw [ChecklistDetail.saveEditedItem_of_hasNonWhiteSpace _ _ _ _ _ h1]
    cases reply <;>
      simp [requests, ChecklistDetail.startEditing, ChecklistDetail.editingItemIdText]
  · simp [ChecklistDetail.onKeyDown, ChecklistDetail.cancelEditing]

/-- C16, at the rename of item 7 to `oat milk`. -/
theorem C16_inline_rename_witness :
    requests (ChecklistDetail.saveEditedItem "http://api" (some "abc123") "1"
      (ChecklistDetail.startEditing
        { checklistName := "Home",
          items := [{ id := 7, itemName := some "milk", name := none,
                      itemCompletionStatus := false }],
          newItemName := "", isLoading := false, error := none, editingItemId := some 3,
          editedName := "bread" }
        7 "oat milk")
      (Reply.resolved ())).2 =
      [{ method := Method.PUT
         url := "http://api" ++ "/checklist/" ++ "1" ++ "/item/rename/" ++ numberToString 7
         data := some [("itemName", "oat milk")]
         bearer := some (some "abc123") }] :=
  (C16_inline_rename "http://api" (some "abc123") "1"
    { checklistName := "Home",
      items := [{ id := 7, itemName := some "milk", name := none,
                  itemCompletionStatus := false }],
      newItemName := "", isLoading := false, error := none, editingItemId := some 3,
      editedName := "bread" }
    7 "oat milk" (Reply.resolved ()) { message := "Network Error", response := none }
    { id := 7, itemName := some "milk", name := none, itemCompletionStatus := false }
    ).2.2.2.2.1 (by decide)

/-! ## Flags of the registration form -/

theorem Register.truthy_errorMessage (err : JsError) :
    truthy (some (Register.errorMessage err)) = true := by
  unfold Register.errorMessage
  cases err.response with
  | none => decide
  | some response =>
    simp only
    split_ifs
    · decide
    · cases response.data with
      | none => decide
      | some data =>
        simp only
        cases hm : data.message with
        | none => simp [truthy]
        | some m =>
          by_cases hne : m = ""
          · subst hne
            simp [truthy]
          · simp [truthy, hne]

/-- C17: after one complete run of `handleRegister`, from any state, on any
input and any reply, `isLoading` is false; `success` is true exactly when the
request was issued and resolved, and then the error is null and exactly one
timer is scheduled, a navigation to `/login` after 2000 ms; otherwise `success`
is false, the error is a non-empty message and no timer is scheduled.  No
navigation is made at once in either case. -/
theorem C17_handleRegister_flags (API_BASE_URL : String) (s : Register.State)
    (reply : Reply Unit) :
    (Register.handleRegister API_BASE_URL s reply).1.isLoading = false ∧
    ((Register.handleRegister API_BASE_URL s reply).1.success = true ↔
      requests (Register.handleRegister API_BASE_URL s reply).2 ≠ [] ∧
        ∃ res, reply = Reply.resolved res) ∧
    ((Register.handleRegister API_BASE_URL s reply).1.success = true →
      (Register.handleRegister API_BASE_URL s reply).1.error = none ∧
      timers (Register.handleRegister API_BASE_URL s reply).2 =
        [(Callback.navigate "/login", 2000)]) ∧
    ((Register.handleRegister API_BASE_URL s reply).1.success = false →
      (Register.handleRegister API_BASE_URL s reply).1.error ≠ none ∧
      truthy (Register.handleRegister API_BASE_URL s reply).1.error = true ∧
      timers (Register.handleRegister API_BASE_URL s reply).2 = []) ∧
    navigations (Register.handleRegister API_BASE_URL s reply).2 = [] := by
  cases he : trimIsFalsy s.email <;> cases hu : trimIsFalsy s.username <;>
    cases hp : trimIsFalsy s.password <;> by_cases hl : length s.password < 6 <;>
    cases ht : Register.test s.email <;> cases reply <;>
    simp [Register.handleRegister, he, hu, hp, hl, ht, requests, timers, navigations,
      Register.truthy_errorMessage] <;>
    decide

/-- C17, at a resolved request from a form that showed an old error, and at a
blank form. -/
theorem C17_handleRegister_flags_witness :
    ((Register.handleRegister "http://api"
      { email := "ann@example.org", username := "ann", password := "secret1",
        confirmPassword := "", isLoading := false, error := some "old", success := false }
      (Reply.resolved ())).1.error = none ∧
     timers (Register.handleRegister "http://api"
      { email := "ann@example.org", username := "ann", password := "secret1",
        confirmPassword := "", isLoading := false, error := some "old", success := false }
      (Reply.resolved ())).2 = [(Callback.navigate "/login", 2000)]) ∧
    (Register.handleRegister "http://api"
      { email := "", username := "", password := "", confirmPassword := "",
        isLoading := false, error := none, success := true }
      (Reply.resolved ())).1.error ≠ none :=
  ⟨(C17_handleRegister_flags "http://api"
      { email := "ann@example.org", username := "ann", password := "secret1",
        confirmPassword := "", isLoading := false, error := some "old", success := false }
      (Reply.resolved ())).2.2.1 (by decide),
    ((C17_handleRegister_flags "http://api"
      { email := "", username := "", password := "", confirmPassword := "",
        isLoading := false, error := none, success := true }
      (Reply.resolved ())).2.2.2.1 (by decide)).1⟩

end Todo
